import Mathlib

/-!
Verification development for the emergency-dispatch coordination backend
(NestJS services `sos.service.ts`, `dashboard.service.ts`,
`hospital.service.ts`).  The relational store (Prisma) is embedded as an
explicit `Store` record of rows; each service method becomes a Lean
function threading the store and returning `Except SvcError` results.
Statuses are kept as strings, exactly as they live in the database and in
the TypeScript code.  Timestamps are integer epoch milliseconds.
-/

/-- Row identifiers. -/
abbrev RowId := Nat

/-- Primitive JavaScript values that can sit in the schema-less
`medicalInfo.severity` slot: a number, a string, `null`, or a boolean. -/
inductive JsPrim where
  | jsNum (q : ℚ)
  | jsStr (s : String)
  | jsNull
  | jsBool (b : Bool)
deriving DecidableEq, Repr

/-- Value of a list of decimal digit characters. -/
def digitsToNat (cs : List Char) : ℕ :=
  cs.foldl (fun n c => 10 * n + (c.toNat - ('0').toNat)) 0

/-- Partial model of the JavaScript `Number(x)` coercion, restricted to the
value shapes of `JsPrim`.  `none` stands for `NaN`.  For strings only the
fragment needed here is modelled: the empty string coerces to 0, a string
of decimal digits to its value, anything else to `NaN`. -/
def jsToNumber : JsPrim → Option ℚ
  | .jsNum q => some q
  | .jsNull => some 0
  | .jsBool b => some (if b then 1 else 0)
  | .jsStr s =>
      if s.data = [] then some 0
      else if s.data.all Char.isDigit then some ((digitsToNat s.data : ℕ) : ℚ)
      else none

/-- The slice of a `medicalInfo` JSON object that the services read: the
optional `severity` member and the optional `grade` member.  Other members
of the open-ended blob are not observed by any modelled code path. -/
structure MedInfoObj where
  severity : Option JsPrim
  grade : Option String
deriving DecidableEq, Repr

/-- Outcome of `JSON.parse` on a `medicalInfo` stored as a string:
the parse throws, yields a falsy value, or yields an object. -/
inductive ParsedJson where
  | bad
  | falsy
  | pobj (o : MedInfoObj)
deriving DecidableEq, Repr

/-- A stored `medicalInfo` column value: either a JSON object or a string
(the dashboard code defends against both representations). -/
inductive MedicalInfo where
  | obj (o : MedInfoObj)
  | jstr (p : ParsedJson)
deriving DecidableEq, Repr

/-- Embedding of `DashboardService.getSeverity` (dashboard.service.ts,
lines 36-55).  Outer `none` is the TypeScript `null` return; `some none`
is a `NaN` produced by `Number(...)`; `some (some q)` is the numeric
severity `q`. -/
def getSeverity : Option MedicalInfo → Option (Option ℚ)
  | none => none
  | some (.obj o) =>
      match o.severity with
      | some (.jsNum q) => some (some q)
      | some p => some (jsToNumber p)
      | none => none
  | some (.jstr .bad) => none
  | some (.jstr .falsy) => none
  | some (.jstr (.pobj o)) =>
      match o.severity with
      | some p => some (jsToNumber p)
      | none => none

/-- User row (fields observed by the modelled service methods). -/
structure User where
  id : RowId
  role : String
  status : String
  organizationId : Option RowId
deriving DecidableEq, Repr

/-- Organization row (hospital or rescue team). -/
structure Organization where
  id : RowId
  name : String
  type : String
  status : String
  availableBeds : Option Int
deriving DecidableEq, Repr

/-- EmergencyRequest row. -/
structure EmergencyRequest where
  id : RowId
  status : String
  type : String
  medicalInfo : Option MedicalInfo
  patientId : RowId
  updatedBy : Option RowId
deriving DecidableEq, Repr

/-- EmergencyResponse row.  Times are epoch milliseconds. -/
structure EmergencyResponse where
  id : RowId
  emergencyRequestId : RowId
  organizationId : RowId
  status : String
  dispatchTime : Option Int
  completionTime : Option Int
  notes : Option String
deriving DecidableEq, Repr

/-- Notification row (recipient and text; the free-form `metadata` and the
`isRead` flag are not observed by any modelled code path). -/
structure Notification where
  type : String
  title : String
  body : String
  userId : RowId
deriving DecidableEq, Repr

/-- The relational store plus the stream of emitted gateway broadcasts.
`nextId` supplies fresh row ids for created rows. -/
structure Store where
  users : List User
  orgs : List Organization
  requests : List EmergencyRequest
  responses : List EmergencyResponse
  notifications : List Notification
  broadcasts : List String
  nextId : RowId
deriving DecidableEq, Repr

/-- Error taxonomy of the services: `NotFoundException`,
`BadRequestException` (validation), and internal/store failures. -/
inductive SvcError where
  | notFound (msg : String)
  | badRequest (msg : String)
  | internal (msg : String)
deriving DecidableEq, Repr

/-- Failure injection for modelling partial failures of infrastructure
steps: a notification write throwing, a gateway broadcast throwing, or an
`emergencyRequest.update` store call throwing. -/
structure FailureSpec where
  notifyFails : Bool
  broadcastFails : Bool
  updateRequestFails : Bool
deriving DecidableEq, Repr

/-- The no-failure environment: every infrastructure step succeeds. -/
def noFail : FailureSpec := ⟨false, false, false⟩

/-- Discriminator for validation (HTTP 400 / `BadRequestException`)
outcomes. -/
def isValidation {α : Type} : Except SvcError α → Bool
  | .error (.badRequest _) => true
  | _ => false

/-- Discriminator for error outcomes. -/
def isErr {α : Type} : Except SvcError α → Bool
  | .error _ => true
  | _ => false

/-- Message carried by a service error. -/
def SvcError.msg : SvcError → String
  | .notFound m => m
  | .badRequest m => m
  | .internal m => m

/-- `prisma.emergencyRequest.findUnique({ where: { id } })`. -/
def findRequest (s : Store) (id : RowId) : Option EmergencyRequest :=
  s.requests.find? (fun r => r.id == id)

/-- `prisma.organization.findUnique({ where: { id } })`. -/
def findOrg (s : Store) (id : RowId) : Option Organization :=
  s.orgs.find? (fun o => o.id == id)

/-- `prisma.emergencyResponse.findUnique({ where: { id } })`. -/
def findResponse (s : Store) (id : RowId) : Option EmergencyResponse :=
  s.responses.find? (fun r => r.id == id)

/-- `prisma.user.findUnique({ where: { id } })`. -/
def findUser (s : Store) (id : RowId) : Option User :=
  s.users.find? (fun u => u.id == id)

/-- In-place update of the request row with the given id. -/
def updateRequest (s : Store) (id : RowId) (f : EmergencyRequest → EmergencyRequest) : Store :=
  { s with requests := s.requests.map (fun r => if r.id == id then f r else r) }

/-- In-place update of the organization row with the given id. -/
def updateOrg (s : Store) (id : RowId) (f : Organization → Organization) : Store :=
  { s with orgs := s.orgs.map (fun o => if o.id == id then f o else o) }

/-- In-place update of the response row with the given id. -/
def updateResponse (s : Store) (id : RowId) (f : EmergencyResponse → EmergencyResponse) : Store :=
  { s with responses := s.responses.map (fun r => if r.id == id then f r else r) }

/-- `prisma.emergencyResponse.create`. -/
def addResponse (s : Store) (r : EmergencyResponse) : Store :=
  { s with responses := s.responses ++ [r], nextId := s.nextId + 1 }

/-- Fallible `prisma.emergencyRequest.update` step, honouring the failure
injection. -/
def updateRequestStep (fs : FailureSpec) (s : Store) (id : RowId)
    (f : EmergencyRequest → EmergencyRequest) : Except SvcError Unit × Store :=
  if fs.updateRequestFails then (.error (.internal "emergencyRequest.update failed"), s)
  else (.ok (), updateRequest s id f)

/-- Modelled from the spec: `NotificationService.createNotification`
(notification.service.ts is not under src/).  Per spec 4.2 it persists one
Notification row per call and its failure propagates to the caller. -/
def createNotification (fs : FailureSpec) (s : Store) (n : Notification) :
    Except SvcError Unit × Store :=
  if fs.notifyFails then (.error (.internal "notification write failed"), s)
  else (.ok (), { s with notifications := s.notifications ++ [n] })

/-- Sequential notification writes (the `for ... await createNotification`
loops); the first failing write aborts the remainder. -/
def notifyAll (fs : FailureSpec) : Store → List Notification → Except SvcError Unit × Store
  | s, [] => (.ok (), s)
  | s, n :: rest =>
      match createNotification fs s n with
      | (.ok _, s1) => notifyAll fs s1 rest
      | (.error e, s1) => (.error e, s1)

/-- Modelled from the spec: a `NotificationGateway.broadcast*` emit
(notification.gateway.ts is not under src/).  Per spec 4.3 it publishes a
named event to all connected clients; a throwing emit propagates unless
the caller catches it. -/
def emitBroadcast (fs : FailureSpec) (s : Store) (event : String) :
    Except SvcError Unit × Store :=
  if fs.broadcastFails then (.error (.internal "broadcast failed"), s)
  else (.ok (), { s with broadcasts := s.broadcasts ++ [event] })

/-- `prisma.$transaction`: run the body; on any error the store rolls back
to its pre-transaction state. -/
def runTransaction {α : Type} (s : Store) (body : Store → Except SvcError α × Store) :
    Except SvcError α × Store :=
  match body s with
  | (.ok a, s1) => (.ok a, s1)
  | (.error e, _) => (.error e, s)

/-- Modelled from the spec: the `EmergencyStatus` enum of sos/dto/sos.dto.ts
(the dto file is not under src/); its members are PENDING, ASSIGNED,
IN_PROGRESS, COMPLETED, CANCELLED (spec section 3 and 4.1). -/
inductive EmergencyStatus where
  | PENDING
  | ASSIGNED
  | IN_PROGRESS
  | COMPLETED
  | CANCELLED
deriving DecidableEq, Repr

/-- String value of an `EmergencyStatus` enum member. -/
def EmergencyStatus.toStr : EmergencyStatus → String
  | .PENDING => "PENDING"
  | .ASSIGNED => "ASSIGNED"
  | .IN_PROGRESS => "IN_PROGRESS"
  | .COMPLETED => "COMPLETED"
  | .CANCELLED => "CANCELLED"

/-- The legal EmergencyRequest status strings (spec section 3 invariant). -/
def allowedRequestStatuses : List String :=
  ["PENDING", "ASSIGNED", "IN_PROGRESS", "COMPLETED", "CANCELLED"]

/-- Mapping from triage grade to numeric severity used at SOS creation
(sos.service.ts line 27). -/
def gradeToSeverity (grade : String) : ℚ :=
  if grade == "CRITICAL" then 5 else if grade == "URGENT" then 3 else 1

/-- Modelled from the spec: the fields of `CreateEmergencyRequestDto`
(sos/dto/sos.dto.ts is not under src/; the field list follows the REST
surface in spec section 6 and the reads in `createEmergencyRequest`). -/
structure CreateEmergencyRequestDto where
  patientId : Option RowId
  type : String
  grade : String
deriving DecidableEq, Repr

/-- Embedding of `SosService.createEmergencyRequest` (sos.service.ts,
lines 21-80): build the medicalInfo blob with the fixed grade-to-severity
mapping, insert the PENDING request, write one notification per active
responder, and broadcast the new emergency. -/
def createEmergencyRequest (fs : FailureSpec) (s : Store)
    (dto : CreateEmergencyRequestDto) (userId : RowId) :
    Except SvcError EmergencyRequest × Store :=
  let patientId := dto.patientId.getD userId
  match findUser s patientId with
  | none => (.error (.internal "patient connect failed"), s)
  | some _ =>
      let req : EmergencyRequest :=
        { id := s.nextId, status := "PENDING", type := dto.type,
          medicalInfo := some (.obj
            { severity := some (.jsNum (gradeToSeverity dto.grade)),
              grade := some dto.grade }),
          patientId := patientId, updatedBy := none }
      let s1 := { s with requests := s.requests ++ [req], nextId := s.nextId + 1 }
      let responders := s1.users.filter (fun u =>
        (u.role == "EMERGENCY_CENTER" || u.role == "HOSPITAL" || u.role == "RESCUE_TEAM")
          && u.status == "ACTIVE")
      match notifyAll fs s1 (responders.map (fun u =>
          { type := "EMERGENCY", title := "New Emergency Request",
            body := "Emergency " ++ dto.type ++ " - " ++ dto.grade ++ " grade",
            userId := u.id })) with
      | (.error e, s2) => (.error e, s2)
      | (.ok _, s2) =>
          match emitBroadcast fs s2 "emergency" with
          | (.error e, s3) => (.error e, s3)
          | (.ok _, s3) => (.ok req, s3)

/-- Tail of the `SosService.assignToHospital` transaction body, from the
hospital lookup onward (sos.service.ts, lines 117-175): hospital lookup
and bed guard, status write, response creation, bed decrement,
notification writes and the in-transaction capacity broadcast.  `s1` is
the store after the status-normalization step. -/
def assignToHospitalRest (fs : FailureSpec) (s1 : Store)
    (emergencyId hospitalId userId : RowId) (emergency : EmergencyRequest) :
    Except SvcError EmergencyRequest × Store :=
  match findOrg s1 hospitalId with
  | none => (.error (.notFound "Hospital not found"), s1)
  | some hospital =>
    if hospital.type != "HOSPITAL" then
      (.error (.notFound "Hospital not found"), s1)
    else if (match hospital.availableBeds with
             | none => true
             | some b => decide (b ≤ 0)) then
      (.error (.badRequest "No available beds in the selected hospital"), s1)
    else
      match updateRequestStep fs s1 emergencyId (fun r =>
          { r with status := "ASSIGNED", updatedBy := some userId }) with
      | (.error e, s2) => (.error e, s2)
      | (.ok _, s2) =>
        let updated := { emergency with status := "ASSIGNED", updatedBy := some userId }
        let s3 := addResponse s2
          { id := s2.nextId, emergencyRequestId := emergencyId,
            organizationId := hospitalId, status := "ASSIGNED",
            dispatchTime := none, completionTime := none, notes := none }
        let s4 := updateOrg s3 hospitalId (fun o =>
          { o with availableBeds := o.availableBeds.map (fun b => b - 1) })
        let hospitalUsers := s4.users.filter (fun u =>
          u.organizationId == some hospitalId && u.role == "HOSPITAL"
            && u.status == "ACTIVE")
        match notifyAll fs s4 (hospitalUsers.map (fun u =>
            { type := "ASSIGNMENT", title := "New Emergency Assignment",
              body := "You have been assigned to emergency case", userId := u.id })) with
        | (.error e, s5) => (.error e, s5)
        | (.ok _, s5) =>
          match createNotification fs s5
              { type := "STATUS_UPDATE", title := "Emergency Status Update",
                body := "Your emergency request has been assigned to " ++ hospital.name,
                userId := emergency.patientId } with
          | (.error e, s6) => (.error e, s6)
          | (.ok _, s6) =>
            match emitBroadcast fs s6 "hospital-update" with
            | (.error e, s7) => (.error e, s7)
            | (.ok _, s7) => (.ok updated, s7)

/-- Transaction body of `SosService.assignToHospital` (sos.service.ts,
lines 83-176): duplicate-response check, status normalization and guard,
then `assignToHospitalRest`. -/
def assignToHospitalBody (fs : FailureSpec) (s : Store)
    (emergencyId hospitalId userId : RowId) :
    Except SvcError EmergencyRequest × Store :=
  match findRequest s emergencyId with
  | none => (.error (.notFound "Emergency request not found"), s)
  | some emergency =>
    match s.responses.find? (fun r =>
        r.emergencyRequestId == emergencyId && r.organizationId == hospitalId) with
    | some _ => (.error (.badRequest "This case has already been assigned to this hospital"), s)
    | none =>
      let normalizedStatus :=
        if emergency.status == "Active" || emergency.status == "ACTIVE" then "PENDING"
        else emergency.status
      if normalizedStatus != "PENDING" && normalizedStatus != "ASSIGNED" then
        (.error (.badRequest ("Only PENDING or ASSIGNED cases can be assigned. Current status: "
          ++ emergency.status)), s)
      else
        match (if emergency.status != normalizedStatus then
                updateRequestStep fs s emergencyId (fun r => { r with status := normalizedStatus })
              else (.ok (), s)) with
        | (.error e, s1) => (.error e, s1)
        | (.ok _, s1) => assignToHospitalRest fs s1 emergencyId hospitalId userId emergency

/-- Embedding of `SosService.assignToHospital` (sos.service.ts, lines
82-184): the body runs inside `prisma.$transaction`, followed by a
post-commit status broadcast. -/
def assignToHospital (fs : FailureSpec) (s : Store)
    (emergencyId hospitalId userId : RowId) :
    Except SvcError EmergencyRequest × Store :=
  match runTransaction s (fun s0 => assignToHospitalBody fs s0 emergencyId hospitalId userId) with
  | (.error e, s1) => (.error e, s1)
  | (.ok updated, s1) =>
      match emitBroadcast fs s1 "status-update" with
      | (.error e, s2) => (.error e, s2)
      | (.ok _, s2) => (.ok updated, s2)

/-- Transaction body of `SosService.updateStatus` (sos.service.ts, lines
187-224): unguarded status write from the typed DTO, then notification
writes to the patient and to every responding organization's users. -/
def updateStatusBody (fs : FailureSpec) (s : Store) (id : RowId)
    (newStatus : EmergencyStatus) (_notes : Option String) :
    Except SvcError EmergencyRequest × Store :=
  match findRequest s id with
  | none => (.error (.notFound "Emergency request not found"), s)
  | some emergency =>
    match updateRequestStep fs s id (fun r => { r with status := newStatus.toStr }) with
    | (.error e, s1) => (.error e, s1)
    | (.ok _, s1) =>
      match createNotification fs s1
          { type := "STATUS_UPDATE", title := "Emergency Status Update",
            body := "Your emergency request status has been updated to " ++ newStatus.toStr,
            userId := emergency.patientId } with
      | (.error e, s2) => (.error e, s2)
      | (.ok _, s2) =>
        let respUsers := ((s.responses.filter (fun r => r.emergencyRequestId == id)).map
          (fun resp => s.users.filter (fun u => u.organizationId == some resp.organizationId))).flatten
        match notifyAll fs s2 (respUsers.map (fun u =>
            { type := "STATUS_UPDATE", title := "Emergency Status Update",
              body := "Emergency request status updated to " ++ newStatus.toStr,
              userId := u.id })) with
        | (.error e, s3) => (.error e, s3)
        | (.ok _, s3) => (.ok { emergency with status := newStatus.toStr }, s3)

/-- Embedding of `SosService.updateStatus` (sos.service.ts, lines 186-229):
the body runs inside `prisma.$transaction`, followed by a post-commit
status broadcast.  The DTO types `status` as the `EmergencyStatus` enum. -/
def updateStatus (fs : FailureSpec) (s : Store) (id : RowId)
    (newStatus : EmergencyStatus) (_notes : Option String) :
    Except SvcError EmergencyRequest × Store :=
  match runTransaction s (fun s0 => updateStatusBody fs s0 id newStatus _notes) with
  | (.error e, s1) => (.error e, s1)
  | (.ok updated, s1) =>
      match emitBroadcast fs s1 "status-update" with
      | (.error e, s2) => (.error e, s2)
      | (.ok _, s2) => (.ok updated, s2)

/-- Read-back view of one emergency request as returned by
`SosService.getEmergencyRequestById`. -/
structure SosReadBack where
  id : RowId
  status : String
  medicalInfo : MedicalInfo
deriving DecidableEq, Repr

/-- Embedding of `SosService.getEmergencyRequestById` (sos.service.ts,
lines 249-259): owner check, and the `medicalInfo || defaultBlob`
fallback. -/
def getEmergencyRequestById (s : Store) (id userId : RowId) :
    Except SvcError SosReadBack :=
  match findRequest s id with
  | none => .error (.notFound "Emergency request not found")
  | some r =>
      if r.patientId != userId then .error (.notFound "Emergency request not found")
      else .ok { id := r.id, status := r.status,
                 medicalInfo := r.medicalInfo.getD
                   (.obj { severity := some (.jsNum 1), grade := some "NON_URGENT" }) }

/-- Embedding of `DashboardService.assignCase` (dashboard.service.ts,
lines 281-337): status guard (PENDING, ASSIGNED, or IN_PROGRESS),
organization type guard, response creation with dispatchTime, then the
request status write.  The method performs no duplicate-response check and
is not wrapped in a transaction. -/
def assignCase (fs : FailureSpec) (s : Store) (caseId assignedToId : RowId) (now : Int) :
    Except SvcError EmergencyRequest × Store :=
  match findRequest s caseId with
  | none => (.error (.notFound "Emergency case not found"), s)
  | some emergency =>
    if !(emergency.status == "PENDING" || emergency.status == "ASSIGNED"
        || emergency.status == "IN_PROGRESS") then
      (.error (.badRequest
        ("Emergency case can only be assigned if it is in PENDING, ASSIGNED, or IN_PROGRESS status. Current status: "
          ++ emergency.status)), s)
    else
      match findOrg s assignedToId with
      | none => (.error (.notFound "Organization not found"), s)
      | some organization =>
        if !(organization.type == "RESCUE_TEAM" || organization.type == "HOSPITAL") then
          (.error (.badRequest "Only RESCUE_TEAM or HOSPITAL can be assigned to a case"), s)
        else
          let s1 := addResponse s
            { id := s.nextId, emergencyRequestId := caseId, organizationId := assignedToId,
              status := "ASSIGNED", dispatchTime := some now, completionTime := none,
              notes := none }
          match updateRequestStep fs s1 caseId (fun r => { r with status := "ASSIGNED" }) with
          | (.error e, s2) => (.error e, s2)
          | (.ok _, s2) => (.ok { emergency with status := "ASSIGNED" }, s2)

/-- Embedding of `DashboardService.cancelCase` (dashboard.service.ts,
lines 339-382): rejects COMPLETED and already-CANCELLED cases, writes
CANCELLED, then emits the stats broadcast inside a try/catch whose failure
is swallowed.  Not wrapped in a transaction. -/
def cancelCase (fs : FailureSpec) (s : Store) (caseId : RowId) :
    Except SvcError EmergencyRequest × Store :=
  match findRequest s caseId with
  | none => (.error (.notFound "Emergency case not found"), s)
  | some emergency =>
    if emergency.status == "COMPLETED" then
      (.error (.badRequest "Completed emergency case cannot be cancelled"), s)
    else if emergency.status == "CANCELLED" then
      (.error (.badRequest "Emergency case is already cancelled"), s)
    else
      match updateRequestStep fs s caseId (fun r => { r with status := "CANCELLED" }) with
      | (.error e, s1) => (.error e, s1)
      | (.ok _, s1) =>
          let s2 := (emitBroadcast fs s1 "stats-updated").2
          (.ok { emergency with status := "CANCELLED" }, s2)

/-- Embedding of `HospitalService.acceptEmergency` (hospital.service.ts,
lines 167-216): hospital lookup (`findOne` filters on type HOSPITAL),
strict PENDING guard, ACCEPTED response creation, request status write to
ASSIGNED, then the patient notification.  Not wrapped in a transaction. -/
def acceptEmergency (fs : FailureSpec) (s : Store) (hospitalId emergencyId : RowId)
    (notes : Option String) : Except SvcError EmergencyResponse × Store :=
  match s.orgs.find? (fun o => o.id == hospitalId && o.type == "HOSPITAL") with
  | none => (.error (.notFound "Hospital not found"), s)
  | some hospital =>
    match findRequest s emergencyId with
    | none => (.error (.notFound "Emergency request not found"), s)
    | some emergency =>
      if emergency.status != "PENDING" then
        (.error (.badRequest "Emergency request is no longer pending"), s)
      else
        let resp : EmergencyResponse :=
          { id := s.nextId, emergencyRequestId := emergencyId, organizationId := hospitalId,
            status := "ACCEPTED", dispatchTime := none, completionTime := none, notes := notes }
        let s1 := addResponse s resp
        match updateRequestStep fs s1 emergencyId (fun r => { r with status := "ASSIGNED" }) with
        | (.error e, s2) => (.error e, s2)
        | (.ok _, s2) =>
          match createNotification fs s2
              { type := "EMERGENCY_ACCEPTED", title := "Hospital Accepted Your Emergency",
                body := hospital.name ++ " has accepted your emergency request",
                userId := emergency.patientId } with
          | (.error e, s3) => (.error e, s3)
          | (.ok _, s3) => (.ok resp, s3)

/-- Embedding of `HospitalService.updateEmergencyResponseStatusManual`
(hospital.service.ts, lines 473-515): the requested status must be one of
ACCEPTED, IN_PROGRESS, COMPLETED, CANCELLED; the response row is updated
to it and the parent request's status is mirrored to the same string.  A
failure of the request update is re-thrown as a BadRequestException. -/
def updateEmergencyResponseStatusManual (fs : FailureSpec) (s : Store)
    (responseId : RowId) (status : String) :
    Except SvcError EmergencyResponse × Store :=
  match findResponse s responseId with
  | none => (.error (.notFound "Emergency response not found"), s)
  | some emergencyResponse =>
    if !(["ACCEPTED", "IN_PROGRESS", "COMPLETED", "CANCELLED"].contains status) then
      (.error (.badRequest "Invalid status. Valid statuses are: ACCEPTED, IN_PROGRESS, COMPLETED, CANCELLED"), s)
    else
      let s1 := updateResponse s responseId (fun r => { r with status := status })
      match updateRequestStep fs s1 emergencyResponse.emergencyRequestId
          (fun r => { r with status := status }) with
      | (.error e, s2) =>
          (.error (.badRequest ("Failed to update emergency response: " ++ e.msg)), s2)
      | (.ok _, s2) => (.ok { emergencyResponse with status := status }, s2)

/-- Duration of one completed response in minutes, as the stats loop
computes it: `(completionTime - dispatchTime) / (1000 * 60)`. -/
def durOf (r : EmergencyResponse) : Option ℚ :=
  match r.dispatchTime, r.completionTime with
  | some d, some c => some (((c - d : ℤ) : ℚ) / (1000 * 60))
  | _, _ => none

/-- JavaScript `Number(x.toFixed(2))`: round to two decimal places. -/
def toFixed2 (x : ℚ) : ℚ := ((round (x * 100) : ℤ) : ℚ) / 100

/-- Embedding of the averageResponseTime computation of
`DashboardService.getStats` (dashboard.service.ts, lines 118-125 and
148-164 and 182): the store query keeps responses with status COMPLETED;
the loop accumulates minutes over rows with both timestamps present and
divides by the count of such rows, defaulting to 0; the result is rounded
with `toFixed(2)`. -/
def averageResponseTime (resps : List EmergencyResponse) : ℚ :=
  let completed := resps.filter (fun r => r.status == "COMPLETED")
  let tot := completed.foldl
    (fun (acc : ℚ × ℕ) r =>
      match durOf r with
      | some m => (acc.1 + m, acc.2 + 1)
      | none => acc)
    ((0 : ℚ), (0 : ℕ))
  let avg := if tot.2 > 0 then tot.1 / (tot.2 : ℚ) else 0
  toFixed2 avg

/-- Embedding of the criticalCases computation of
`DashboardService.getStats` (dashboard.service.ts, lines 139-146): reduce
over all requests' medicalInfo, counting those whose severity reads as the
number 4. -/
def criticalCases (reqs : List EmergencyRequest) : ℕ :=
  reqs.foldl
    (fun acc e => acc + (if getSeverity e.medicalInfo = some (some 4) then 1 else 0)) 0

/-- Status of the request row with the given id, if present. -/
def statusOf (s : Store) (id : RowId) : Option String :=
  (findRequest s id).map (fun r => r.status)

/-- Available beds of the organization row with the given id, if present. -/
def bedsOf (s : Store) (id : RowId) : Option (Option Int) :=
  (findOrg s id).map (fun o => o.availableBeds)

/-- Responses linking a given (emergencyRequestId, organizationId) pair. -/
def responsesLinking (s : Store) (eid oid : RowId) : List EmergencyResponse :=
  s.responses.filter (fun r => r.emergencyRequestId == eid && r.organizationId == oid)

/-- Mapping an id-preserving per-row rewrite across a list commutes with
`find?` when the rewrite does not change the predicate's verdict. -/
theorem find?_map_pres {α : Type} (p : α → Bool) (f : α → α)
    (hp : ∀ a, p (f a) = p a) : ∀ l : List α, (l.map f).find? p = (l.find? p).map f := by
  intro l
  induction l with
  | nil => rfl
  | cons a t ih =>
      by_cases h : p a = true
      · simp [List.find?, hp, h]
      · simp only [Bool.not_eq_true] at h
        simp [List.find?, hp, h, ih]

/-- Looking up a request after an id-preserving row update. -/
theorem findRequest_updateRequest (s : Store) (id j : RowId)
    (f : EmergencyRequest → EmergencyRequest) (hf : ∀ r, (f r).id = r.id) :
    findRequest (updateRequest s id f) j
      = (findRequest s j).map (fun r => if r.id == id then f r else r) := by
  unfold findRequest updateRequest
  exact find?_map_pres _ _ (fun a => by by_cases h : (a.id == id) = true <;> simp [h, hf]) _

/-- Looking up an organization after an id-preserving row update. -/
theorem findOrg_updateOrg (s : Store) (id j : RowId)
    (f : Organization → Organization) (hf : ∀ o, (f o).id = o.id) :
    findOrg (updateOrg s id f) j
      = (findOrg s j).map (fun o => if o.id == id then f o else o) := by
  unfold findOrg updateOrg
  exact find?_map_pres _ _ (fun a => by by_cases h : (a.id == id) = true <;> simp [h, hf]) _

@[simp] theorem noFail_notifyFails : noFail.notifyFails = false := rfl

@[simp] theorem noFail_broadcastFails : noFail.broadcastFails = false := rfl

@[simp] theorem noFail_updateRequestFails : noFail.updateRequestFails = false := rfl

/-- Sequential no-failure notification writes append exactly the given
rows and succeed. -/
theorem notifyAll_noFail (s : Store) (ns : List Notification) :
    notifyAll noFail s ns = (.ok (), { s with notifications := s.notifications ++ ns }) := by
  induction ns generalizing s with
  | nil => simp [notifyAll]
  | cons n rest ih => simp [notifyAll, createNotification, ih]

/-- A no-failure broadcast emit appends the event and succeeds. -/
theorem emitBroadcast_noFail (s : Store) (ev : String) :
    emitBroadcast noFail s ev = (.ok (), { s with broadcasts := s.broadcasts ++ [ev] }) := by
  simp [emitBroadcast, noFail]

/-- A no-failure request update performs the row rewrite and succeeds. -/
theorem updateRequestStep_noFail (s : Store) (id : RowId)
    (f : EmergencyRequest → EmergencyRequest) :
    updateRequestStep noFail s id f = (.ok (), updateRequest s id f) := by
  simp [updateRequestStep, noFail]

@[simp] theorem updateRequest_users (s : Store) (id : RowId) (f : EmergencyRequest → EmergencyRequest) : (updateRequest s id f).users = s.users := rfl

@[simp] theorem updateRequest_orgs (s : Store) (id : RowId) (f : EmergencyRequest → EmergencyRequest) : (updateRequest s id f).orgs = s.orgs := rfl

@[simp] theorem updateRequest_responses (s : Store) (id : RowId) (f : EmergencyRequest → EmergencyRequest) : (updateRequest s id f).responses = s.responses := rfl

@[simp] theorem updateRequest_notifications (s : Store) (id : RowId) (f : EmergencyRequest → EmergencyRequest) : (updateRequest s id f).notifications = s.notifications := rfl

@[simp] theorem updateRequest_broadcasts (s : Store) (id : RowId) (f : EmergencyRequest → EmergencyRequest) : (updateRequest s id f).broadcasts = s.broadcasts := rfl

@[simp] theorem updateRequest_nextId (s : Store) (id : RowId) (f : EmergencyRequest → EmergencyRequest) : (updateRequest s id f).nextId = s.nextId := rfl

@[simp] theorem updateOrg_users (s : Store) (id : RowId) (f : Organization → Organization) : (updateOrg s id f).users = s.users := rfl

@[simp] theorem updateOrg_requests (s : Store) (id : RowId) (f : Organization → Organization) : (updateOrg s id f).requests = s.requests := rfl

@[simp] theorem updateOrg_responses (s : Store) (id : RowId) (f : Organization → Organization) : (updateOrg s id f).responses = s.responses := rfl

@[simp] theorem updateOrg_notifications (s : Store) (id : RowId) (f : Organization → Organization) : (updateOrg s id f).notifications = s.notifications := rfl

@[simp] theorem updateOrg_broadcasts (s : Store) (id : RowId) (f : Organization → Organization) : (updateOrg s id f).broadcasts = s.broadcasts := rfl

@[simp] theorem updateOrg_nextId (s : Store) (id : RowId) (f : Organization → Organization) : (updateOrg s id f).nextId = s.nextId := rfl

@[simp] theorem addResponse_users (s : Store) (r : EmergencyResponse) : (addResponse s r).users = s.users := rfl

@[simp] theorem addResponse_orgs (s : Store) (r : EmergencyResponse) : (addResponse s r).orgs = s.orgs := rfl

@[simp] theorem addResponse_requests (s : Store) (r : EmergencyResponse) : (addResponse s r).requests = s.requests := rfl

@[simp] theorem addResponse_responses (s : Store) (r : EmergencyResponse) : (addResponse s r).responses = s.responses ++ [r] := rfl

@[simp] theorem addResponse_notifications (s : Store) (r : EmergencyResponse) : (addResponse s r).notifications = s.notifications := rfl

@[simp] theorem addResponse_broadcasts (s : Store) (r : EmergencyResponse) : (addResponse s r).broadcasts = s.broadcasts := rfl

@[simp] theorem addResponse_nextId (s : Store) (r : EmergencyResponse) : (addResponse s r).nextId = s.nextId + 1 := rfl

@[simp] theorem updateResponse_users (s : Store) (id : RowId) (f : EmergencyResponse → EmergencyResponse) : (updateResponse s id f).users = s.users := rfl

@[simp] theorem updateResponse_orgs (s : Store) (id : RowId) (f : EmergencyResponse → EmergencyResponse) : (updateResponse s id f).orgs = s.orgs := rfl

@[simp] theorem updateResponse_requests (s : Store) (id : RowId) (f : EmergencyResponse → EmergencyResponse) : (updateResponse s id f).requests = s.requests := rfl

@[simp] theorem updateResponse_notifications (s : Store) (id : RowId) (f : EmergencyResponse → EmergencyResponse) : (updateResponse s id f).notifications = s.notifications := rfl

@[simp] theorem updateResponse_broadcasts (s : Store) (id : RowId) (f : EmergencyResponse → EmergencyResponse) : (updateResponse s id f).broadcasts = s.broadcasts := rfl

@[simp] theorem updateResponse_nextId (s : Store) (id : RowId) (f : EmergencyResponse → EmergencyResponse) : (updateResponse s id f).nextId = s.nextId := rfl

/-- A no-failure notification write appends the row and succeeds. -/
theorem createNotification_noFail (s : Store) (n : Notification) :
    createNotification noFail s n
      = (.ok (), { s with notifications := s.notifications ++ [n] }) := by
  simp [createNotification]

/-- A row returned by `findRequest` carries the looked-up id. -/
theorem findRequest_id {s : Store} {id : RowId} {r : EmergencyRequest}
    (h : findRequest s id = some r) : r.id = id := by
  unfold findRequest at h
  have h2 := List.find?_some h
  simpa using h2

/-- A row returned by `findOrg` carries the looked-up id. -/
theorem findOrg_id {s : Store} {id : RowId} {o : Organization}
    (h : findOrg s id = some o) : o.id = id := by
  unfold findOrg at h
  have h2 := List.find?_some h
  simpa using h2

/-- Reading back the updated request row after an id-preserving update. -/
theorem statusOf_updateRequest (s : Store) (id : RowId)
    (f : EmergencyRequest → EmergencyRequest) (hf : ∀ r, (f r).id = r.id)
    (e : EmergencyRequest) (h : findRequest s id = some e) :
    findRequest (updateRequest s id f) id = some (f e) := by
  rw [findRequest_updateRequest s id id f hf, h]
  simp [findRequest_id h]

/-- Reading back the updated organization row after an id-preserving
update. -/
theorem orgOf_updateOrg (s : Store) (id : RowId)
    (f : Organization → Organization) (hf : ∀ o, (f o).id = o.id)
    (o : Organization) (h : findOrg s id = some o) :
    findOrg (updateOrg s id f) id = some (f o) := by
  rw [findOrg_updateOrg s id id f hf, h]
  simp [findOrg_id h]

/-- C7: the dashboard cancel operation rejects a COMPLETED request with a
validation error, rejects an already-CANCELLED request with a validation
error (leaving the store unchanged in both cases), and on a PENDING
request succeeds and sets the request's status to CANCELLED. -/
theorem C7_cancel_guards (s : Store) (caseId : RowId) (e : EmergencyRequest)
    (h : findRequest s caseId = some e) :
    (e.status = "COMPLETED" →
      isValidation (cancelCase noFail s caseId).1 = true ∧ (cancelCase noFail s caseId).2 = s) ∧
    (e.status = "CANCELLED" →
      isValidation (cancelCase noFail s caseId).1 = true ∧ (cancelCase noFail s caseId).2 = s) ∧
    (e.status = "PENDING" →
      (cancelCase noFail s caseId).1 = .ok { e with status := "CANCELLED" } ∧
      statusOf (cancelCase noFail s caseId).2 caseId = some "CANCELLED") := by
  refine ⟨?_, ?_, ?_⟩ <;> intro hst
  · simp [cancelCase, h, hst, isValidation]
  · simp [cancelCase, h, hst, isValidation]
  · have hcc : cancelCase noFail s caseId =
        (.ok { e with status := "CANCELLED" },
         { updateRequest s caseId (fun r => { r with status := "CANCELLED" }) with
             broadcasts := s.broadcasts ++ ["stats-updated"] }) := by
      simp [cancelCase, h, hst, updateRequestStep_noFail, emitBroadcast_noFail]
    have hupd : findRequest (updateRequest s caseId
        (fun r => { r with status := "CANCELLED" })) caseId
        = some { e with status := "CANCELLED" } :=
      statusOf_updateRequest s caseId (fun r => { r with status := "CANCELLED" })
        (fun r => rfl) e h
    refine ⟨by rw [hcc], ?_⟩
    rw [hcc]
    unfold statusOf
    have hreq : findRequest
        ({ updateRequest s caseId (fun r => { r with status := "CANCELLED" }) with
            broadcasts := s.broadcasts ++ ["stats-updated"] }) caseId
        = findRequest (updateRequest s caseId (fun r => { r with status := "CANCELLED" })) caseId := rfl
    rw [hreq, hupd]
    rfl

/-- Witness store with one PENDING request. -/
def WPending : Store :=
  { users := [], orgs := [], requests := [⟨1, "PENDING", "medical", none, 7, none⟩],
    responses := [], notifications := [], broadcasts := [], nextId := 10 }

/-- Witness store with one COMPLETED request. -/
def WCompleted : Store :=
  { users := [], orgs := [], requests := [⟨1, "COMPLETED", "medical", none, 7, none⟩],
    responses := [], notifications := [], broadcasts := [], nextId := 10 }

/-- Witness store with one CANCELLED request. -/
def WCancelled : Store :=
  { users := [], orgs := [], requests := [⟨1, "CANCELLED", "medical", none, 7, none⟩],
    responses := [], notifications := [], broadcasts := [], nextId := 10 }

/-- Witness for C7 at concrete one-request stores in each guarded state. -/
theorem C7_cancel_guards_witness :
    (isValidation (cancelCase noFail WCompleted 1).1 = true ∧
      (cancelCase noFail WCompleted 1).2 = WCompleted) ∧
    (isValidation (cancelCase noFail WCancelled 1).1 = true ∧
      (cancelCase noFail WCancelled 1).2 = WCancelled) ∧
    ((cancelCase noFail WPending 1).1 = .ok ⟨1, "CANCELLED", "medical", none, 7, none⟩ ∧
      statusOf (cancelCase noFail WPending 1).2 1 = some "CANCELLED") :=
  ⟨(C7_cancel_guards WCompleted 1 ⟨1, "COMPLETED", "medical", none, 7, none⟩ rfl).1 rfl,
   (C7_cancel_guards WCancelled 1 ⟨1, "CANCELLED", "medical", none, 7, none⟩ rfl).2.1 rfl,
   (C7_cancel_guards WPending 1 ⟨1, "PENDING", "medical", none, 7, none⟩ rfl).2.2 rfl⟩

/-- C2 (amended with the duplicate-free precondition): assigning a
PENDING request to a HOSPITAL organization with availableBeds = 3, when no
EmergencyResponse links that pair yet, succeeds; afterwards the request's
status is ASSIGNED, the hospital's availableBeds is 2, and exactly one new
EmergencyResponse row with status ASSIGNED links request and hospital. -/
theorem C2_assign_success (s : Store) (eid hid uid : RowId)
    (e : EmergencyRequest) (hosp : Organization)
    (h : findRequest s eid = some e) (hst : e.status = "PENDING")
    (hdup : s.responses.find? (fun r => r.emergencyRequestId == eid && r.organizationId == hid) = none)
    (ho : findOrg s hid = some hosp) (htype : hosp.type = "HOSPITAL")
    (hbeds : hosp.availableBeds = some 3) :
    (assignToHospital noFail s eid hid uid).1
        = .ok { e with status := "ASSIGNED", updatedBy := some uid } ∧
    statusOf (assignToHospital noFail s eid hid uid).2 eid = some "ASSIGNED" ∧
    bedsOf (assignToHospital noFail s eid hid uid).2 hid = some (some 2) ∧
    (assignToHospital noFail s eid hid uid).2.responses
        = s.responses ++ [⟨s.nextId, eid, hid, "ASSIGNED", none, none, none⟩] := by
  simp only [assignToHospital, runTransaction, assignToHospitalBody, assignToHospitalRest, h, hst, hdup, ho, htype,
    hbeds, updateRequestStep_noFail, notifyAll_noFail, createNotification_noFail,
    emitBroadcast_noFail, statusOf, bedsOf]
  simp [assignToHospital, runTransaction, assignToHospitalBody, assignToHospitalRest, h, hst, hdup, ho, htype, hbeds,
    updateRequestStep_noFail, notifyAll_noFail, createNotification_noFail, emitBroadcast_noFail,
    statusOf, bedsOf]
  constructor
  · exact ⟨{ e with status := "ASSIGNED", updatedBy := some uid },
      statusOf_updateRequest s eid
        (fun r => { r with status := "ASSIGNED", updatedBy := some uid }) (fun r => rfl) e h,
      rfl⟩
  · refine ⟨{ hosp with availableBeds := Option.map (fun b => b - 1) hosp.availableBeds },
      orgOf_updateOrg _ hid
        (fun o => { o with availableBeds := Option.map (fun b => b - 1) o.availableBeds })
        (fun o => rfl) hosp ho, ?_⟩
    simp [hbeds]

/-- Witness store for successful hospital assignment: one PENDING request,
one ACTIVE hospital with three beds, no responses. -/
def WAssign : Store :=
  { users := [⟨7, "PATIENT", "ACTIVE", none⟩],
    orgs := [⟨5, "General", "HOSPITAL", "ACTIVE", some 3⟩],
    requests := [⟨1, "PENDING", "medical", none, 7, none⟩],
    responses := [], notifications := [], broadcasts := [], nextId := 10 }

/-- Witness for C2 at the concrete store `WAssign`. -/
theorem C2_assign_success_witness :
    (assignToHospital noFail WAssign 1 5 9).1
        = .ok ⟨1, "ASSIGNED", "medical", none, 7, some 9⟩ ∧
    statusOf (assignToHospital noFail WAssign 1 5 9).2 1 = some "ASSIGNED" ∧
    bedsOf (assignToHospital noFail WAssign 1 5 9).2 5 = some (some 2) ∧
    (assignToHospital noFail WAssign 1 5 9).2.responses
        = [⟨10, 1, 5, "ASSIGNED", none, none, none⟩] :=
  C2_assign_success WAssign 1 5 9 ⟨1, "PENDING", "medical", none, 7, none⟩
    ⟨5, "General", "HOSPITAL", "ACTIVE", some 3⟩ rfl rfl rfl rfl rfl rfl

/-- Witness store refuting the unconditional reading of C2: the request is
PENDING and the hospital has three beds, but an EmergencyResponse already
links the pair. -/
def WAssignDup : Store :=
  { users := [⟨7, "PATIENT", "ACTIVE", none⟩],
    orgs := [⟨5, "General", "HOSPITAL", "ACTIVE", some 3⟩],
    requests := [⟨1, "PENDING", "medical", none, 7, none⟩],
    responses := [⟨2, 1, 5, "ASSIGNED", none, none, none⟩],
    notifications := [], broadcasts := [], nextId := 10 }

/-- C2 counterexample: with a PENDING request and a hospital holding three
beds, the hospital-assignment operation nevertheless fails (duplicate
response guard), so the claim's unconditional success assertion is false. -/
theorem C2_assign_success_counterexample :
    (assignToHospital noFail WAssignDup 1 5 9).1
        = .error (.badRequest "This case has already been assigned to this hospital") ∧
    statusOf (assignToHospital noFail WAssignDup 1 5 9).2 1 = some "PENDING" ∧
    bedsOf (assignToHospital noFail WAssignDup 1 5 9).2 5 = some (some 3) := by
  refine ⟨rfl, rfl, rfl⟩

@[simp] theorem findOrg_updateRequest (s : Store) (id oid : RowId) (f : EmergencyRequest → EmergencyRequest) : findOrg (updateRequest s id f) oid = findOrg s oid := rfl

@[simp] theorem findOrg_addResponse (s : Store) (r : EmergencyResponse) (oid : RowId) : findOrg (addResponse s r) oid = findOrg s oid := rfl

@[simp] theorem findRequest_updateOrg (s : Store) (id rid : RowId) (f : Organization → Organization) : findRequest (updateOrg s id f) rid = findRequest s rid := rfl

@[simp] theorem findRequest_addResponse (s : Store) (r : EmergencyResponse) (rid : RowId) : findRequest (addResponse s r) rid = findRequest s rid := rfl

@[simp] theorem findRequest_updateResponse (s : Store) (id rid : RowId) (f : EmergencyResponse → EmergencyResponse) : findRequest (updateResponse s id f) rid = findRequest s rid := rfl

/-- A Boolean validation verdict names a `BadRequestException` payload. -/
theorem isValidation_eq {α : Type} {x : Except SvcError α}
    (h : isValidation x = true) : ∃ m, x = .error (.badRequest m) := by
  cases x with
  | ok a => simp [isValidation] at h
  | error e =>
      cases e with
      | notFound m => simp [isValidation] at h
      | badRequest m => exact ⟨m, rfl⟩
      | internal m => simp [isValidation] at h

/-- C3: assigning any existing emergency request to a HOSPITAL
organization whose availableBeds is absent or at most 0 fails with a
validation error, and the whole transaction rolls back, leaving the store
(request row, hospital row, responses) unchanged. -/
theorem C3_assign_no_beds (s : Store) (eid hid uid : RowId)
    (e : EmergencyRequest) (hosp : Organization)
    (h : findRequest s eid = some e)
    (ho : findOrg s hid = some hosp) (htype : hosp.type = "HOSPITAL")
    (hbeds : hosp.availableBeds = none ∨ ∃ b, hosp.availableBeds = some b ∧ b ≤ 0) :
    isValidation (assignToHospital noFail s eid hid uid).1 = true ∧
    (assignToHospital noFail s eid hid uid).2 = s := by
  have hguard : (match hosp.availableBeds with
      | none => true
      | some b => decide (b ≤ 0)) = true := by
    rcases hbeds with hb | ⟨b, hb, hble⟩ <;> simp [hb]
    exact hble
  have hbody : isValidation (assignToHospitalBody noFail s eid hid uid).1 = true := by
    cases hd : s.responses.find?
        (fun r => r.emergencyRequestId == eid && r.organizationId == hid) with
    | some r => simp [assignToHospitalBody, assignToHospitalRest, h, hd, isValidation]
    | none =>
      by_cases hA : e.status = "Active"
      · simp [assignToHospitalBody, assignToHospitalRest, h, hd, hA, ho, htype, hguard,
          updateRequestStep_noFail, isValidation]
      · by_cases hAC : e.status = "ACTIVE"
        · simp [assignToHospitalBody, assignToHospitalRest, h, hd, hA, hAC, ho, htype, hguard,
            updateRequestStep_noFail, isValidation]
        · by_cases hP : e.status = "PENDING"
          · simp [assignToHospitalBody, assignToHospitalRest, h, hd, hA, hAC, hP, ho, htype, hguard,
              updateRequestStep_noFail, isValidation]
          · by_cases hAs : e.status = "ASSIGNED"
            · simp [assignToHospitalBody, assignToHospitalRest, h, hd, hA, hAC, hP, hAs, ho, htype, hguard,
                updateRequestStep_noFail, isValidation]
            · simp [assignToHospitalBody, assignToHospitalRest, h, hd, hA, hAC, hP, hAs, ho, htype, hguard,
                updateRequestStep_noFail, isValidation]
  rcases hp : assignToHospitalBody noFail s eid hid uid with ⟨r1, s1⟩
  rw [hp] at hbody
  obtain ⟨m, hm⟩ := isValidation_eq hbody
  subst hm
  simp [assignToHospital, runTransaction, hp, isValidation]

/-- Witness store with a bed-less hospital. -/
def WNoBeds : Store :=
  { users := [⟨7, "PATIENT", "ACTIVE", none⟩],
    orgs := [⟨5, "General", "HOSPITAL", "ACTIVE", some 0⟩],
    requests := [⟨1, "PENDING", "medical", none, 7, none⟩],
    responses := [], notifications := [], broadcasts := [], nextId := 10 }

/-- Witness for C3 at the concrete store `WNoBeds`. -/
theorem C3_assign_no_beds_witness :
    isValidation (assignToHospital noFail WNoBeds 1 5 9).1 = true ∧
    (assignToHospital noFail WNoBeds 1 5 9).2 = WNoBeds :=
  C3_assign_no_beds WNoBeds 1 5 9 ⟨1, "PENDING", "medical", none, 7, none⟩
    ⟨5, "General", "HOSPITAL", "ACTIVE", some 0⟩ rfl rfl rfl
    (Or.inr ⟨0, rfl, by decide⟩)

/-- C4 counterexample: in a store where an EmergencyResponse already links
request 1 to organization 5, the dashboard assign-case path succeeds and
creates a second EmergencyResponse row for the same pair, contradicting
the claim that both assignment paths reject duplicates. -/
theorem C4_counterexample :
    (assignCase noFail WAssignDup 1 5 777).1
        = .ok ⟨1, "ASSIGNED", "medical", none, 7, none⟩ ∧
    (responsesLinking (assignCase noFail WAssignDup 1 5 777).2 1 5).length = 2 :=
  ⟨rfl, rfl⟩

/-- C4 (amended): the hospital-assignment path rejects a duplicate
(request, organization) pair with a validation error and leaves the store
unchanged, but the dashboard assign-case path performs no duplicate check:
whenever its status and organization-type guards pass it appends a new
ASSIGNED EmergencyResponse row unconditionally, so the pair-uniqueness
invariant is enforced only on the hospital path. -/
theorem C4_amended (s : Store) (eid hid uid cid oid : RowId) (now : Int)
    (e e2 : EmergencyRequest) (org : Organization) (r : EmergencyResponse)
    (h : findRequest s eid = some e)
    (hdup : s.responses.find? (fun r => r.emergencyRequestId == eid && r.organizationId == hid) = some r)
    (h2 : findRequest s cid = some e2)
    (hst2 : e2.status = "PENDING" ∨ e2.status = "ASSIGNED" ∨ e2.status = "IN_PROGRESS")
    (ho2 : findOrg s oid = some org)
    (htype2 : org.type = "RESCUE_TEAM" ∨ org.type = "HOSPITAL") :
    (isValidation (assignToHospital noFail s eid hid uid).1 = true ∧
      (assignToHospital noFail s eid hid uid).2 = s) ∧
    ((assignCase noFail s cid oid now).1 = .ok { e2 with status := "ASSIGNED" } ∧
      (assignCase noFail s cid oid now).2.responses
        = s.responses ++ [⟨s.nextId, cid, oid, "ASSIGNED", some now, none, none⟩]) := by
  constructor
  · constructor
    · simp [assignToHospital, runTransaction, assignToHospitalBody, assignToHospitalRest, h, hdup, isValidation]
    · simp [assignToHospital, runTransaction, assignToHospitalBody, assignToHospitalRest, h, hdup]
  · have hg : (e2.status == "PENDING" || e2.status == "ASSIGNED"
        || e2.status == "IN_PROGRESS") = true := by
      rcases hst2 with hs | hs | hs <;> simp [hs]
    have hgo : (org.type == "RESCUE_TEAM" || org.type == "HOSPITAL") = true := by
      rcases htype2 with ht | ht <;> simp [ht]
    constructor
    · simp [assignCase, h2, hg, ho2, hgo, updateRequestStep_noFail]
    · simp [assignCase, h2, hg, ho2, hgo, updateRequestStep_noFail]

/-- Witness for C4 at the concrete store `WAssignDup`. -/
theorem C4_amended_witness :
    (isValidation (assignToHospital noFail WAssignDup 1 5 9).1 = true ∧
      (assignToHospital noFail WAssignDup 1 5 9).2 = WAssignDup) ∧
    ((assignCase noFail WAssignDup 1 5 777).1
        = .ok ⟨1, "ASSIGNED", "medical", none, 7, none⟩ ∧
      (assignCase noFail WAssignDup 1 5 777).2.responses
        = [⟨2, 1, 5, "ASSIGNED", none, none, none⟩, ⟨10, 1, 5, "ASSIGNED", some 777, none, none⟩]) :=
  C4_amended WAssignDup 1 5 9 1 5 777
    ⟨1, "PENDING", "medical", none, 7, none⟩ ⟨1, "PENDING", "medical", none, 7, none⟩
    ⟨5, "General", "HOSPITAL", "ACTIVE", some 3⟩ ⟨2, 1, 5, "ASSIGNED", none, none, none⟩
    rfl rfl rfl (Or.inl rfl) rfl (Or.inr rfl)

/-- Failure environment in which every `emergencyRequest.update` store
call throws. -/
def updFail : FailureSpec := ⟨false, false, true⟩

/-- C5 counterexample: in the dashboard assign-case path, when the
request-status update step fails after the EmergencyResponse row was
created, the operation reports an error but the response row remains
persisted — the steps do not roll back, refuting the one-atomic-
transaction claim. -/
theorem C5_counterexample :
    (assignCase updFail WAssign 1 5 777).1
        = .error (.internal "emergencyRequest.update failed") ∧
    (assignCase updFail WAssign 1 5 777).2.responses
        = [⟨10, 1, 5, "ASSIGNED", some 777, none, none⟩] :=
  ⟨rfl, rfl⟩

/-- C5 (amended): the sos-service paths (assignToHospital, updateStatus)
run inside one `prisma.$transaction`, so any failure of their body leaves
the store unchanged; the dashboard assign-case path and the hospital
accept-emergency path are not wrapped in a transaction, so when their
request-status update step fails the already-created EmergencyResponse row
stays persisted. -/
theorem C5_amended :
    (∀ fs s eid hid uid, isErr (assignToHospitalBody fs s eid hid uid).1 = true →
        (assignToHospital fs s eid hid uid).2 = s) ∧
    (∀ fs s id st n, isErr (updateStatusBody fs s id st n).1 = true →
        (updateStatus fs s id st n).2 = s) ∧
    (∀ fs s cid oid now e2 org, fs.updateRequestFails = true →
        findRequest s cid = some e2 →
        (e2.status = "PENDING" ∨ e2.status = "ASSIGNED" ∨ e2.status = "IN_PROGRESS") →
        findOrg s oid = some org →
        (org.type = "RESCUE_TEAM" ∨ org.type = "HOSPITAL") →
        isErr (assignCase fs s cid oid now).1 = true ∧
        (assignCase fs s cid oid now).2.responses
          = s.responses ++ [⟨s.nextId, cid, oid, "ASSIGNED", some now, none, none⟩]) ∧
    (∀ fs s hid eid notes hosp e, fs.updateRequestFails = true →
        s.orgs.find? (fun o => o.id == hid && o.type == "HOSPITAL") = some hosp →
        findRequest s eid = some e → e.status = "PENDING" →
        isErr (acceptEmergency fs s hid eid notes).1 = true ∧
        (acceptEmergency fs s hid eid notes).2.responses
          = s.responses ++ [⟨s.nextId, eid, hid, "ACCEPTED", none, none, notes⟩]) := by
  refine ⟨?_, ?_, ?_, ?_⟩
  · intro fs s eid hid uid h
    rcases hp : assignToHospitalBody fs s eid hid uid with ⟨r1, s1⟩
    rw [hp] at h
    cases r1 with
    | ok a => simp [isErr] at h
    | error e => simp [assignToHospital, runTransaction, hp]
  · intro fs s id st n h
    rcases hp : updateStatusBody fs s id st n with ⟨r1, s1⟩
    rw [hp] at h
    cases r1 with
    | ok a => simp [isErr] at h
    | error e => simp [updateStatus, runTransaction, hp]
  · intro fs s cid oid now e2 org hfail h2 hst2 ho2 htype2
    have hg : (e2.status == "PENDING" || e2.status == "ASSIGNED"
        || e2.status == "IN_PROGRESS") = true := by
      rcases hst2 with hs | hs | hs <;> simp [hs]
    have hgo : (org.type == "RESCUE_TEAM" || org.type == "HOSPITAL") = true := by
      rcases htype2 with ht | ht <;> simp [ht]
    constructor
    · simp [assignCase, h2, hg, ho2, hgo, updateRequestStep, hfail, isErr]
    · simp [assignCase, h2, hg, ho2, hgo, updateRequestStep, hfail]
  · intro fs s hid eid notes hosp e hfail ho h hst
    constructor
    · simp [acceptEmergency, ho, h, hst, updateRequestStep, hfail, isErr]
    · simp [acceptEmergency, ho, h, hst, updateRequestStep, hfail]

/-- Witness for C5 instantiating each half at concrete stores: a failing
transactional body leaves the store untouched, while the non-transactional
paths persist the response row despite the failed update step. -/
theorem C5_amended_witness :
    ((assignToHospital noFail WAssignDup 1 5 9).2 = WAssignDup) ∧
    ((updateStatus noFail WAssign 99 .COMPLETED none).2 = WAssign) ∧
    (isErr (assignCase updFail WAssign 1 5 777).1 = true ∧
      (assignCase updFail WAssign 1 5 777).2.responses
        = [⟨10, 1, 5, "ASSIGNED", some 777, none, none⟩]) ∧
    (isErr (acceptEmergency updFail WAssign 5 1 none).1 = true ∧
      (acceptEmergency updFail WAssign 5 1 none).2.responses
        = [⟨10, 1, 5, "ACCEPTED", none, none, none⟩]) :=
  ⟨C5_amended.1 noFail WAssignDup 1 5 9 rfl,
   C5_amended.2.1 noFail WAssign 99 .COMPLETED none rfl,
   C5_amended.2.2.1 updFail WAssign 1 5 777
     ⟨1, "PENDING", "medical", none, 7, none⟩ ⟨5, "General", "HOSPITAL", "ACTIVE", some 3⟩
     rfl rfl (Or.inl rfl) rfl (Or.inr rfl),
   C5_amended.2.2.2 updFail WAssign 5 1 none
     ⟨5, "General", "HOSPITAL", "ACTIVE", some 3⟩ ⟨1, "PENDING", "medical", none, 7, none⟩
     rfl rfl rfl rfl⟩

/-- A request lookup is unaffected by a broadcast emit. -/
@[simp] theorem findRequest_emitBroadcast (fs : FailureSpec) (s : Store) (ev : String) (id : RowId) :
    findRequest (emitBroadcast fs s ev).2 id = findRequest s id := by
  unfold emitBroadcast
  split <;> rfl

/-- When the transaction body of assignToHospital fails, the error passes
through and the store rolls back. -/
theorem assignToHospital_body_err (fs : FailureSpec) (s : Store) (eid hid uid : RowId)
    (h : isErr (assignToHospitalBody fs s eid hid uid).1 = true) :
    (assignToHospital fs s eid hid uid).1 = (assignToHospitalBody fs s eid hid uid).1 ∧
    (assignToHospital fs s eid hid uid).2 = s := by
  rcases hp : assignToHospitalBody fs s eid hid uid with ⟨r1, s1⟩
  rw [hp] at h
  cases r1 with
  | ok a => simp [isErr] at h
  | error e => simp [assignToHospital, runTransaction, hp]

/-- Failure environment in which every notification write throws. -/
def notifFail : FailureSpec := ⟨true, false, false⟩

/-- Failure environment in which every gateway broadcast throws while
notification writes succeed. -/
def bcastFail : FailureSpec := ⟨false, true, false⟩

/-- A notification write succeeds whenever the environment does not fail
notification writes. -/
theorem createNotification_ok {fs : FailureSpec} (h : fs.notifyFails = false)
    (s : Store) (n : Notification) :
    createNotification fs s n
      = (.ok (), { s with notifications := s.notifications ++ [n] }) := by
  simp [createNotification, h]

/-- Sequential notification writes succeed and append the given rows
whenever the environment does not fail notification writes. -/
theorem notifyAll_ok {fs : FailureSpec} (h : fs.notifyFails = false)
    (s : Store) (ns : List Notification) :
    notifyAll fs s ns = (.ok (), { s with notifications := s.notifications ++ ns }) := by
  induction ns generalizing s with
  | nil => simp [notifyAll]
  | cons n rest ih => simp [notifyAll, createNotification, h, ih]

/-- C6 counterexample: a failing notification write inside
assignToHospital aborts the whole operation (and rolls the transaction
back), so a best-effort side-effect failure does convert into a
client-facing failure and the primary mutation does not commit. -/
theorem C6_counterexample :
    (assignToHospital notifFail WAssign 1 5 9).1
        = .error (.internal "notification write failed") ∧
    (assignToHospital notifFail WAssign 1 5 9).2 = WAssign :=
  ⟨rfl, rfl⟩

/-- C6 (amended): only the cancel path treats its broadcast as
best-effort — cancelCase succeeds and writes CANCELLED regardless of a
broadcast failure; in assignToHospital the notification writes and the
capacity broadcast sit unprotected inside the transaction, so a failure
of either one (failing notification writes, or a failing broadcast with
the notification writes succeeding) errors the operation and rolls the
assignment back. -/
theorem C6_amended (fs : FailureSpec) (s : Store) (cid eid hid uid : RowId)
    (e ea : EmergencyRequest) (hosp : Organization) (b : Int)
    (h : findRequest s cid = some e)
    (hupd : fs.updateRequestFails = false)
    (hc : e.status ≠ "COMPLETED") (hnc : e.status ≠ "CANCELLED")
    (ha : findRequest s eid = some ea) (hsta : ea.status = "PENDING")
    (hdup : s.responses.find? (fun r => r.emergencyRequestId == eid && r.organizationId == hid) = none)
    (ho : findOrg s hid = some hosp) (htype : hosp.type = "HOSPITAL")
    (hbeds : hosp.availableBeds = some b) (hpos : ¬ b ≤ 0)
    (hinfra : fs.notifyFails = true ∨ fs.broadcastFails = true) :
    ((cancelCase fs s cid).1 = .ok { e with status := "CANCELLED" } ∧
      statusOf (cancelCase fs s cid).2 cid = some "CANCELLED") ∧
    (isErr (assignToHospital fs s eid hid uid).1 = true ∧
      (assignToHospital fs s eid hid uid).2 = s) := by
  have hc' : (e.status == "COMPLETED") = false := by simp [hc]
  have hnc' : (e.status == "CANCELLED") = false := by simp [hnc]
  constructor
  · constructor
    · simp [cancelCase, h, hc', hnc', updateRequestStep, hupd]
    · simp only [cancelCase, h, hc', hnc', updateRequestStep, hupd, Bool.false_eq_true,
        if_false, statusOf, findRequest_emitBroadcast]
      rw [statusOf_updateRequest s cid (fun r => { r with status := "CANCELLED" })
        (fun r => rfl) e h]
      rfl
  · have hbody : isErr (assignToHospitalBody fs s eid hid uid).1 = true := by
      by_cases hnf : fs.notifyFails = true
      · cases hl : s.users.filter (fun u =>
            u.organizationId == some hid && u.role == "HOSPITAL" && u.status == "ACTIVE") with
        | nil =>
            simp [assignToHospitalBody, assignToHospitalRest, ha, hsta, hdup, ho, htype,
              hbeds, hpos, updateRequestStep, hupd, hl, notifyAll, createNotification,
              hnf, isErr]
        | cons u t =>
            simp [assignToHospitalBody, assignToHospitalRest, ha, hsta, hdup, ho, htype,
              hbeds, hpos, updateRequestStep, hupd, hl, notifyAll, createNotification,
              hnf, isErr]
      · have hnf' : fs.notifyFails = false := by simpa using hnf
        have hbf : fs.broadcastFails = true := by
          rcases hinfra with hq | hq
          · exact absurd hq hnf
          · exact hq
        simp [assignToHospitalBody, assignToHospitalRest, ha, hsta, hdup, ho, htype,
          hbeds, hpos, updateRequestStep, hupd, notifyAll_ok hnf',
          createNotification_ok hnf', emitBroadcast, hbf, isErr]
    have hres := assignToHospital_body_err fs s eid hid uid hbody
    exact ⟨by rw [hres.1]; exact hbody, hres.2⟩

/-- Witness for C6 at the concrete store `WAssign`, exercising both
failure shapes: failing notification writes, and a failing broadcast with
the notification writes succeeding. -/
theorem C6_amended_witness :
    (((cancelCase notifFail WAssign 1).1 = .ok ⟨1, "CANCELLED", "medical", none, 7, none⟩ ∧
      statusOf (cancelCase notifFail WAssign 1).2 1 = some "CANCELLED") ∧
     (isErr (assignToHospital notifFail WAssign 1 5 9).1 = true ∧
      (assignToHospital notifFail WAssign 1 5 9).2 = WAssign)) ∧
    (((cancelCase bcastFail WAssign 1).1 = .ok ⟨1, "CANCELLED", "medical", none, 7, none⟩ ∧
      statusOf (cancelCase bcastFail WAssign 1).2 1 = some "CANCELLED") ∧
     (isErr (assignToHospital bcastFail WAssign 1 5 9).1 = true ∧
      (assignToHospital bcastFail WAssign 1 5 9).2 = WAssign)) :=
  ⟨C6_amended notifFail WAssign 1 1 5 9
    ⟨1, "PENDING", "medical", none, 7, none⟩ ⟨1, "PENDING", "medical", none, 7, none⟩
    ⟨5, "General", "HOSPITAL", "ACTIVE", some 3⟩ 3
    rfl rfl (by decide) (by decide) rfl rfl rfl rfl rfl rfl (by decide) (Or.inl rfl),
   C6_amended bcastFail WAssign 1 1 5 9
    ⟨1, "PENDING", "medical", none, 7, none⟩ ⟨1, "PENDING", "medical", none, 7, none⟩
    ⟨5, "General", "HOSPITAL", "ACTIVE", some 3⟩ 3
    rfl rfl (by decide) (by decide) rfl rfl rfl rfl rfl rfl (by decide) (Or.inr rfl)⟩

/-- Every request row in the store carries a status drawn from `S`. -/
def StatusesIn (S : List String) (s : Store) : Prop :=
  ∀ r ∈ s.requests, r.status ∈ S

theorem statusesIn_of_requests_eq {S : List String} {s s' : Store}
    (h : s'.requests = s.requests) (hS : StatusesIn S s) : StatusesIn S s' :=
  fun r hr => hS r (h ▸ hr)

theorem statusesIn_updateRequest {S : List String} {s : Store} {id : RowId}
    {f : EmergencyRequest → EmergencyRequest} (hS : StatusesIn S s)
    (hf : ∀ r, r.status ∈ S → (f r).status ∈ S) :
    StatusesIn S (updateRequest s id f) := by
  intro r' hr'
  unfold updateRequest at hr'
  simp only [List.mem_map] at hr'
  obtain ⟨r, hr, heq⟩ := hr'
  subst heq
  by_cases h : (r.id == id) = true
  · simp only [h, if_true]
    exact hf r (hS r hr)
  · simp only [h, if_false]
    exact hS r hr

theorem updateRequestStep_snd (fs : FailureSpec) (s : Store) (id : RowId)
    (f : EmergencyRequest → EmergencyRequest) :
    (updateRequestStep fs s id f).2 = s ∨ (updateRequestStep fs s id f).2 = updateRequest s id f := by
  unfold updateRequestStep
  split
  · exact Or.inl rfl
  · exact Or.inr rfl

theorem statusesIn_updateRequestStep {S : List String} {fs : FailureSpec} {s : Store}
    {id : RowId} {f : EmergencyRequest → EmergencyRequest} (hS : StatusesIn S s)
    (hf : ∀ r, r.status ∈ S → (f r).status ∈ S) :
    StatusesIn S (updateRequestStep fs s id f).2 := by
  rcases updateRequestStep_snd fs s id f with hq | hq
  · rw [hq]; exact hS
  · rw [hq]; exact statusesIn_updateRequest hS hf

theorem emitBroadcast_requests (fs : FailureSpec) (s : Store) (ev : String) :
    (emitBroadcast fs s ev).2.requests = s.requests := by
  unfold emitBroadcast
  split <;> rfl

theorem createNotification_requests (fs : FailureSpec) (s : Store) (n : Notification) :
    (createNotification fs s n).2.requests = s.requests := by
  unfold createNotification
  split <;> rfl

theorem notifyAll_requests (fs : FailureSpec) (s : Store) (ns : List Notification) :
    (notifyAll fs s ns).2.requests = s.requests := by
  induction ns generalizing s with
  | nil => rfl
  | cons n rest ih =>
      unfold notifyAll
      rcases hc : createNotification fs s n with ⟨r1, s1⟩
      have h1 : s1.requests = s.requests := by
        have h0 := createNotification_requests fs s n
        rw [hc] at h0
        exact h0
      cases r1 with
      | ok a => simpa [h1] using (ih s1).trans h1
      | error e => simpa using h1

theorem C1pres_assignToHospitalRest {S : List String} (hA : "ASSIGNED" ∈ S)
    (fs : FailureSpec) (s1 : Store) (eid hid uid : RowId) (emergency : EmergencyRequest)
    (hS : StatusesIn S s1) :
    StatusesIn S (assignToHospitalRest fs s1 eid hid uid emergency).2 := by
  unfold assignToHospitalRest
  cases ho : findOrg s1 hid with
  | none => exact hS
  | some hospital =>
    simp only []
    split
    · exact hS
    · split
      · exact hS
      · rcases hu2 : updateRequestStep fs s1 eid
            (fun r => { r with status := "ASSIGNED", updatedBy := some uid }) with ⟨r2, s2⟩
        have hs2 : StatusesIn S s2 := by
          have h3 : s2 = (updateRequestStep fs s1 eid
              (fun r => { r with status := "ASSIGNED", updatedBy := some uid })).2 := by
            rw [hu2]
          rw [h3]
          exact statusesIn_updateRequestStep hS (fun r _ => hA)
        cases r2 with
        | error e2 => exact hs2
        | ok a2 =>
          dsimp only
          set sW := updateOrg (addResponse s2
            { id := s2.nextId, emergencyRequestId := eid, organizationId := hid,
              status := "ASSIGNED", dispatchTime := none, completionTime := none,
              notes := none }) hid
            (fun o => { o with availableBeds := Option.map (fun b => b - 1) o.availableBeds })
            with hsW
          set ns : List Notification := (sW.users.filter (fun u => u.organizationId == some hid
              && u.role == "HOSPITAL" && u.status == "ACTIVE")).map (fun u =>
            { type := "ASSIGNMENT", title := "New Emergency Assignment",
              body := "You have been assigned to emergency case", userId := u.id })
            with hns
          have hsWreq : sW.requests = s2.requests := by rw [hsW]; simp
          rcases hn : notifyAll fs sW ns with ⟨r3, s3⟩
          have hs3 : StatusesIn S s3 := by
            refine statusesIn_of_requests_eq ?_ hs2
            have h4 := notifyAll_requests fs sW ns
            rw [hn] at h4
            exact h4.trans hsWreq
          cases r3 with
          | error e3 => exact hs3
          | ok a3 =>
            dsimp only
            rcases hc2 : createNotification fs s3
                { type := "STATUS_UPDATE", title := "Emergency Status Update",
                  body := "Your emergency request has been assigned to " ++ hospital.name,
                  userId := emergency.patientId } with ⟨r4, s4⟩
            have hs4 : StatusesIn S s4 := by
              refine statusesIn_of_requests_eq ?_ hs3
              have h5 := createNotification_requests fs s3
                { type := "STATUS_UPDATE", title := "Emergency Status Update",
                  body := "Your emergency request has been assigned to " ++ hospital.name,
                  userId := emergency.patientId }
              rw [hc2] at h5
              exact h5
            cases r4 with
            | error e4 => exact hs4
            | ok a4 =>
              dsimp only
              rcases hb : emitBroadcast fs s4 "hospital-update" with ⟨r5, s5⟩
              have hs5 : StatusesIn S s5 := by
                refine statusesIn_of_requests_eq ?_ hs4
                have h6 := emitBroadcast_requests fs s4 "hospital-update"
                rw [hb] at h6
                exact h6
              cases r5 with
              | error e5 => exact hs5
              | ok a5 => exact hs5

theorem findRequest_mem {s : Store} {id : RowId} {r : EmergencyRequest}
    (h : findRequest s id = some r) : r ∈ s.requests := by
  unfold findRequest at h
  exact List.mem_of_find?_eq_some h

theorem C1pres_assignToHospitalBody {S : List String} (hP : "PENDING" ∈ S)
    (hA : "ASSIGNED" ∈ S) (fs : FailureSpec) (s : Store) (eid hid uid : RowId)
    (hS : StatusesIn S s) :
    StatusesIn S (assignToHospitalBody fs s eid hid uid).2 := by
  unfold assignToHospitalBody
  cases h : findRequest s eid with
  | none => exact hS
  | some e =>
    have hestat : e.status ∈ S := hS e (findRequest_mem h)
    cases hd : s.responses.find?
        (fun r => r.emergencyRequestId == eid && r.organizationId == hid) with
    | some r => exact hS
    | none =>
      by_cases hA1 : e.status = "Active"
      · simp only [hA1]
        norm_num
        rcases hu : updateRequestStep fs s eid (fun r => { r with status := "PENDING" })
          with ⟨r1, s1⟩
        have hs1 : StatusesIn S s1 := by
          have h2 : s1 = (updateRequestStep fs s eid
              (fun r => { r with status := "PENDING" })).2 := by rw [hu]
          rw [h2]
          exact statusesIn_updateRequestStep hS (fun r _ => hP)
        cases r1 with
        | error e1 => exact hs1
        | ok a1 => exact C1pres_assignToHospitalRest hA fs s1 eid hid uid e hs1
      · by_cases hA2 : e.status = "ACTIVE"
        · simp only [hA2]
          norm_num
          rcases hu : updateRequestStep fs s eid (fun r => { r with status := "PENDING" })
            with ⟨r1, s1⟩
          have hs1 : StatusesIn S s1 := by
            have h2 : s1 = (updateRequestStep fs s eid
                (fun r => { r with status := "PENDING" })).2 := by rw [hu]
            rw [h2]
            exact statusesIn_updateRequestStep hS (fun r _ => hP)
          cases r1 with
          | error e1 => exact hs1
          | ok a1 => exact C1pres_assignToHospitalRest hA fs s1 eid hid uid e hs1
        · have hnorm : (e.status == "Active" || e.status == "ACTIVE") = false := by
            simp [hA1, hA2]
          simp only [hnorm, Bool.false_eq_true, if_false, bne_self_eq_false]
          split
          · exact hS
          · exact C1pres_assignToHospitalRest hA fs s eid hid uid e hS

theorem statusesIn_mono {S T : List String} {s : Store} (hsub : ∀ c, c ∈ S → c ∈ T)
    (hS : StatusesIn S s) : StatusesIn T s :=
  fun r hr => hsub r.status (hS r hr)

theorem C1pres_assignToHospital {S : List String} (hP : "PENDING" ∈ S)
    (hA : "ASSIGNED" ∈ S) (fs : FailureSpec) (s : Store) (eid hid uid : RowId)
    (hS : StatusesIn S s) :
    StatusesIn S (assignToHospital fs s eid hid uid).2 := by
  unfold assignToHospital
  rcases hp : runTransaction s (fun s0 => assignToHospitalBody fs s0 eid hid uid) with ⟨r1, s1⟩
  have hs1 : StatusesIn S s1 := by
    have h2 : s1 = (runTransaction s (fun s0 => assignToHospitalBody fs s0 eid hid uid)).2 := by
      rw [hp]
    rw [h2]
    unfold runTransaction
    dsimp only
    rcases hb : assignToHospitalBody fs s eid hid uid with ⟨rb, sb⟩
    have hsb : StatusesIn S sb := by
      have h3 : sb = (assignToHospitalBody fs s eid hid uid).2 := by rw [hb]
      rw [h3]
      exact C1pres_assignToHospitalBody hP hA fs s eid hid uid hS
    cases rb with
    | ok a => exact hsb
    | error e => exact hS
  cases r1 with
  | error e1 => exact hs1
  | ok a1 =>
      dsimp only
      rcases hbr : emitBroadcast fs s1 "status-update" with ⟨r2, s2⟩
      have hs2 : StatusesIn S s2 := by
        refine statusesIn_of_requests_eq ?_ hs1
        have h4 := emitBroadcast_requests fs s1 "status-update"
        rw [hbr] at h4
        exact h4
      cases r2 with
      | error e2 => exact hs2
      | ok a2 => exact hs2

theorem C1pres_assignCase {S : List String} (hA : "ASSIGNED" ∈ S)
    (fs : FailureSpec) (s : Store) (cid oid : RowId) (now : Int)
    (hS : StatusesIn S s) :
    StatusesIn S (assignCase fs s cid oid now).2 := by
  unfold assignCase
  cases h : findRequest s cid with
  | none => exact hS
  | some e =>
    dsimp only
    split
    · exact hS
    · cases ho : findOrg s oid with
      | none => exact hS
      | some org =>
        dsimp only
        split
        · exact hS
        · rcases hu : updateRequestStep fs
              (addResponse s
                { id := s.nextId, emergencyRequestId := cid, organizationId := oid,
                  status := "ASSIGNED", dispatchTime := some now, completionTime := none,
                  notes := none }) cid
              (fun r => { r with status := "ASSIGNED" }) with ⟨r1, s1⟩
          have hs1 : StatusesIn S s1 := by
            have h2 : s1 = (updateRequestStep fs
                (addResponse s
                  { id := s.nextId, emergencyRequestId := cid, organizationId := oid,
                    status := "ASSIGNED", dispatchTime := some now, completionTime := none,
                    notes := none }) cid
                (fun r => { r with status := "ASSIGNED" })).2 := by rw [hu]
            rw [h2]
            refine statusesIn_updateRequestStep ?_ (fun r _ => hA)
            exact statusesIn_of_requests_eq rfl hS
          cases r1 with
          | error e1 => exact hs1
          | ok a1 => exact hs1

theorem C1pres_cancelCase {S : List String} (hC : "CANCELLED" ∈ S)
    (fs : FailureSpec) (s : Store) (cid : RowId) (hS : StatusesIn S s) :
    StatusesIn S (cancelCase fs s cid).2 := by
  unfold cancelCase
  cases h : findRequest s cid with
  | none => exact hS
  | some e =>
    dsimp only
    split
    · exact hS
    · split
      · exact hS
      · rcases hu : updateRequestStep fs s cid (fun r => { r with status := "CANCELLED" })
            with ⟨r1, s1⟩
        have hs1 : StatusesIn S s1 := by
          have h2 : s1 = (updateRequestStep fs s cid
              (fun r => { r with status := "CANCELLED" })).2 := by rw [hu]
          rw [h2]
          exact statusesIn_updateRequestStep hS (fun r _ => hC)
        cases r1 with
        | error e1 => exact hs1
        | ok a1 =>
            dsimp only
            refine statusesIn_of_requests_eq ?_ hs1
            exact emitBroadcast_requests fs s1 "stats-updated"

theorem C1pres_updateStatusBody {S : List String} (fs : FailureSpec) (s : Store)
    (id : RowId) (st : EmergencyStatus) (n : Option String)
    (hst : st.toStr ∈ S) (hS : StatusesIn S s) :
    StatusesIn S (updateStatusBody fs s id st n).2 := by
  unfold updateStatusBody
  cases h : findRequest s id with
  | none => exact hS
  | some e =>
    dsimp only
    rcases hu : updateRequestStep fs s id (fun r => { r with status := st.toStr })
        with ⟨r1, s1⟩
    have hs1 : StatusesIn S s1 := by
      have h2 : s1 = (updateRequestStep fs s id
          (fun r => { r with status := st.toStr })).2 := by rw [hu]
      rw [h2]
      exact statusesIn_updateRequestStep hS (fun r _ => hst)
    cases r1 with
    | error e1 => exact hs1
    | ok a1 =>
      dsimp only
      rcases hc : createNotification fs s1
          { type := "STATUS_UPDATE", title := "Emergency Status Update",
            body := "Your emergency request status has been updated to " ++ st.toStr,
            userId := e.patientId } with ⟨r2, s2⟩
      have hs2 : StatusesIn S s2 := by
        refine statusesIn_of_requests_eq ?_ hs1
        have h3 := createNotification_requests fs s1
          { type := "STATUS_UPDATE", title := "Emergency Status Update",
            body := "Your emergency request status has been updated to " ++ st.toStr,
            userId := e.patientId }
        rw [hc] at h3
        exact h3
      cases r2 with
      | error e2 => exact hs2
      | ok a2 =>
        dsimp only
        rcases hn : notifyAll fs s2
            (List.map (fun u =>
              { type := "STATUS_UPDATE", title := "Emergency Status Update",
                body := "Emergency request status updated to " ++ st.toStr, userId := u.id })
              (List.map (fun resp => List.filter
                  (fun u => u.organizationId == some resp.organizationId) s.users)
                (List.filter (fun r => r.emergencyRequestId == id) s.responses)).flatten)
            with ⟨r3, s3⟩
        have hs3 : StatusesIn S s3 := by
          refine statusesIn_of_requests_eq ?_ hs2
          have h4 := notifyAll_requests fs s2
            (List.map (fun u =>
              { type := "STATUS_UPDATE", title := "Emergency Status Update",
                body := "Emergency request status updated to " ++ st.toStr, userId := u.id })
              (List.map (fun resp => List.filter
                  (fun u => u.organizationId == some resp.organizationId) s.users)
                (List.filter (fun r => r.emergencyRequestId == id) s.responses)).flatten)
          rw [hn] at h4
          exact h4
        rw [hn]
        cases r3 with
        | error e3 => exact hs3
        | ok a3 => exact hs3

theorem C1pres_updateStatus {S : List String} (fs : FailureSpec) (s : Store)
    (id : RowId) (st : EmergencyStatus) (n : Option String)
    (hst : st.toStr ∈ S) (hS : StatusesIn S s) :
    StatusesIn S (updateStatus fs s id st n).2 := by
  unfold updateStatus
  rcases hp : runTransaction s (fun s0 => updateStatusBody fs s0 id st n) with ⟨r1, s1⟩
  have hs1 : StatusesIn S s1 := by
    have h2 : s1 = (runTransaction s (fun s0 => updateStatusBody fs s0 id st n)).2 := by
      rw [hp]
    rw [h2]
    unfold runTransaction
    dsimp only
    rcases hb : updateStatusBody fs s id st n with ⟨rb, sb⟩
    have hsb : StatusesIn S sb := by
      have h3 : sb = (updateStatusBody fs s id st n).2 := by rw [hb]
      rw [h3]
      exact C1pres_updateStatusBody fs s id st n hst hS
    cases rb with
    | ok a => exact hsb
    | error e => exact hS
  cases r1 with
  | error e1 => exact hs1
  | ok a1 =>
      dsimp only
      rcases hbr : emitBroadcast fs s1 "status-update" with ⟨r2, s2⟩
      have hs2 : StatusesIn S s2 := by
        refine statusesIn_of_requests_eq ?_ hs1
        have h4 := emitBroadcast_requests fs s1 "status-update"
        rw [hbr] at h4
        exact h4
      cases r2 with
      | error e2 => exact hs2
      | ok a2 => exact hs2

theorem notifyAll_requests_inv {fs : FailureSpec} {s : Store} {ns : List Notification}
    {r : Except SvcError Unit} {s' : Store} (h : notifyAll fs s ns = (r, s')) :
    s'.requests = s.requests := by
  have h0 := notifyAll_requests fs s ns
  rw [h] at h0
  exact h0

theorem createNotification_requests_inv {fs : FailureSpec} {s : Store} {n : Notification}
    {r : Except SvcError Unit} {s' : Store} (h : createNotification fs s n = (r, s')) :
    s'.requests = s.requests := by
  have h0 := createNotification_requests fs s n
  rw [h] at h0
  exact h0

theorem emitBroadcast_requests_inv {fs : FailureSpec} {s : Store} {ev : String}
    {r : Except SvcError Unit} {s' : Store} (h : emitBroadcast fs s ev = (r, s')) :
    s'.requests = s.requests := by
  have h0 := emitBroadcast_requests fs s ev
  rw [h] at h0
  exact h0

theorem updateRequestStep_inv {fs : FailureSpec} {s : Store} {id : RowId}
    {f : EmergencyRequest → EmergencyRequest} {r : Except SvcError Unit} {s' : Store}
    (h : updateRequestStep fs s id f = (r, s')) :
    s' = s ∨ s' = updateRequest s id f := by
  have h0 := updateRequestStep_snd fs s id f
  rw [h] at h0
  exact h0

theorem statusesIn_updateRequestStep_inv {S : List String} {fs : FailureSpec} {s : Store}
    {id : RowId} {f : EmergencyRequest → EmergencyRequest} {r : Except SvcError Unit}
    {s' : Store} (h : updateRequestStep fs s id f = (r, s')) (hS : StatusesIn S s)
    (hf : ∀ q, q.status ∈ S → (f q).status ∈ S) : StatusesIn S s' := by
  rcases updateRequestStep_inv h with hq | hq
  · rw [hq]; exact hS
  · rw [hq]; exact statusesIn_updateRequest hS hf

theorem C1pres_createEmergencyRequest {S : List String} (hP : "PENDING" ∈ S)
    (fs : FailureSpec) (s : Store) (dto : CreateEmergencyRequestDto) (uid : RowId)
    (hS : StatusesIn S s) :
    StatusesIn S (createEmergencyRequest fs s dto uid).2 := by
  unfold createEmergencyRequest
  dsimp only
  cases h : findUser s (dto.patientId.getD uid) with
  | none => exact hS
  | some u =>
    dsimp only
    have hs1 : ∀ r : EmergencyRequest,
        (r ∈ s.requests ∨ r.status = "PENDING") → r.status ∈ S := by
      intro r hr
      rcases hr with hr | hr
      · exact hS r hr
      · rw [hr]; exact hP
    split
    · rename_i e1 s2 heq
      refine statusesIn_of_requests_eq (notifyAll_requests_inv heq) ?_
      intro r hr
      simp only [List.mem_append, List.mem_singleton] at hr
      refine hs1 r ?_
      rcases hr with hr | hr
      · exact Or.inl hr
      · rw [hr]; exact Or.inr rfl
    · rename_i a1 s2 heq
      have hs2 : StatusesIn S s2 := by
        refine statusesIn_of_requests_eq (notifyAll_requests_inv heq) ?_
        intro r hr
        simp only [List.mem_append, List.mem_singleton] at hr
        refine hs1 r ?_
        rcases hr with hr | hr
        · exact Or.inl hr
        · rw [hr]; exact Or.inr rfl
      split
      · rename_i e2 s3 heq2
        exact statusesIn_of_requests_eq (emitBroadcast_requests_inv heq2) hs2
      · rename_i a2 s3 heq2
        exact statusesIn_of_requests_eq (emitBroadcast_requests_inv heq2) hs2

theorem C1pres_manual {S : List String}
    (hacc : "ACCEPTED" ∈ S) (hip : "IN_PROGRESS" ∈ S) (hcomp : "COMPLETED" ∈ S)
    (hcanc : "CANCELLED" ∈ S)
    (fs : FailureSpec) (s : Store) (respId : RowId) (status : String)
    (hS : StatusesIn S s) :
    StatusesIn S (updateEmergencyResponseStatusManual fs s respId status).2 := by
  unfold updateEmergencyResponseStatusManual
  cases h : findResponse s respId with
  | none => exact hS
  | some resp =>
    dsimp only
    split
    · exact hS
    · rename_i hv
      have hstS : status ∈ S := by
        have hmem : ¬status = "ACCEPTED" → ¬status = "IN_PROGRESS" →
            ¬status = "COMPLETED" → status = "CANCELLED" := by
          simpa using hv
        by_cases h1 : status = "ACCEPTED"
        · rw [h1]; exact hacc
        by_cases h2 : status = "IN_PROGRESS"
        · rw [h2]; exact hip
        by_cases h3 : status = "COMPLETED"
        · rw [h3]; exact hcomp
        rw [hmem h1 h2 h3]
        exact hcanc
      have hSur : StatusesIn S (updateResponse s respId (fun r => { r with status := status })) :=
        statusesIn_of_requests_eq rfl hS
      split
      · rename_i e1 s2 heq
        exact statusesIn_updateRequestStep_inv heq hSur (fun q _ => hstS)
      · rename_i a1 s2 heq
        exact statusesIn_updateRequestStep_inv heq hSur (fun q _ => hstS)

/-- C1 counterexample: the manual response-status override accepts
"ACCEPTED" and mirrors it into the parent request's status, which is not a
member of {PENDING, ASSIGNED, IN_PROGRESS, COMPLETED, CANCELLED}. -/
theorem C1_counterexample :
    (updateEmergencyResponseStatusManual noFail WAssignDup 2 "ACCEPTED").1
        = .ok ⟨2, 1, 5, "ACCEPTED", none, none, none⟩ ∧
    statusOf (updateEmergencyResponseStatusManual noFail WAssignDup 2 "ACCEPTED").2 1
        = some "ACCEPTED" ∧
    "ACCEPTED" ∉ allowedRequestStatuses :=
  ⟨rfl, rfl, by decide⟩

/-- C1 (amended): after creation, hospital assignment, dashboard
assignment, cancel, and the typed manual status update, every request's
status remains in {PENDING, ASSIGNED, IN_PROGRESS, COMPLETED, CANCELLED};
the response-status mirroring path preserves only the larger set that
additionally contains ACCEPTED, since it can write ACCEPTED into the
request row. -/
theorem C1_status_set (fs : FailureSpec) (s : Store) (dto : CreateEmergencyRequestDto)
    (uid eid hid cid oid rid respId : RowId) (now : Int) (st : EmergencyStatus)
    (notes : Option String) (manualStatus : String)
    (hS : StatusesIn allowedRequestStatuses s) :
    StatusesIn allowedRequestStatuses (createEmergencyRequest fs s dto uid).2 ∧
    StatusesIn allowedRequestStatuses (assignToHospital fs s eid hid uid).2 ∧
    StatusesIn allowedRequestStatuses (assignCase fs s cid oid now).2 ∧
    StatusesIn allowedRequestStatuses (cancelCase fs s cid).2 ∧
    StatusesIn allowedRequestStatuses (updateStatus fs s rid st notes).2 ∧
    StatusesIn ("ACCEPTED" :: allowedRequestStatuses)
      (updateEmergencyResponseStatusManual fs s respId manualStatus).2 := by
  have hP : "PENDING" ∈ allowedRequestStatuses := by decide
  have hA : "ASSIGNED" ∈ allowedRequestStatuses := by decide
  have hC : "CANCELLED" ∈ allowedRequestStatuses := by decide
  have hall : st.toStr ∈ allowedRequestStatuses := by cases st <;> decide
  refine ⟨C1pres_createEmergencyRequest hP fs s dto uid hS,
    C1pres_assignToHospital hP hA fs s eid hid uid hS,
    C1pres_assignCase hA fs s cid oid now hS,
    C1pres_cancelCase hC fs s cid hS,
    C1pres_updateStatus fs s rid st notes hall hS,
    C1pres_manual (by decide) (by decide) (by decide) (by decide) fs s respId manualStatus
      (statusesIn_mono (fun c hc => by exact List.mem_cons_of_mem _ hc) hS)⟩

/-- Witness for C1 at the concrete store `WAssign`. -/
theorem C1_status_set_witness :
    StatusesIn allowedRequestStatuses
      (createEmergencyRequest noFail WAssign ⟨none, "accident", "CRITICAL"⟩ 7).2 ∧
    StatusesIn allowedRequestStatuses (assignToHospital noFail WAssign 1 5 7).2 ∧
    StatusesIn allowedRequestStatuses (assignCase noFail WAssign 1 5 777).2 ∧
    StatusesIn allowedRequestStatuses (cancelCase noFail WAssign 1).2 ∧
    StatusesIn allowedRequestStatuses (updateStatus noFail WAssign 1 .COMPLETED none).2 ∧
    StatusesIn ("ACCEPTED" :: allowedRequestStatuses)
      (updateEmergencyResponseStatusManual noFail WAssign 2 "ACCEPTED").2 :=
  C1_status_set noFail WAssign ⟨none, "accident", "CRITICAL"⟩ 7 1 5 1 5 1 2 777
    .COMPLETED none "ACCEPTED"
    (by unfold StatusesIn; decide)

/-- Declarative reading of the stats loop: the per-response durations, in
minutes, over exactly the responses with status COMPLETED and both
timestamps present. -/
def completedDurations (resps : List EmergencyResponse) : List ℚ :=
  (resps.filter (fun r => r.status == "COMPLETED")).filterMap durOf

theorem avg_loop (l : List EmergencyResponse) : ∀ a : ℚ, ∀ n : ℕ,
    l.foldl (fun (acc : ℚ × ℕ) r => match durOf r with
      | some m => (acc.1 + m, acc.2 + 1)
      | none => acc) (a, n)
    = (a + (l.filterMap durOf).sum, n + (l.filterMap durOf).length) := by
  induction l with
  | nil => intro a n; simp
  | cons r t ih =>
      intro a n
      cases hd : durOf r with
      | none => simp [List.foldl_cons, hd, List.filterMap_cons, ih a n]
      | some m =>
          simp only [List.foldl_cons, hd, List.filterMap_cons, List.sum_cons,
            List.length_cons]
          rw [ih (a + m) (n + 1), Prod.mk.injEq]
          exact ⟨by ring, by omega⟩

/-- The stats loop computes the two-decimal rounding of the mean of
`completedDurations` (0 when no response qualifies). -/
theorem averageResponseTime_spec (resps : List EmergencyResponse) :
    averageResponseTime resps =
      toFixed2 (if (completedDurations resps).length = 0 then 0
                else (completedDurations resps).sum / ((completedDurations resps).length : ℚ)) := by
  unfold averageResponseTime completedDurations
  dsimp only
  rw [avg_loop]
  simp only [zero_add, Nat.zero_add]
  by_cases hl : ((resps.filter (fun r => r.status == "COMPLETED")).filterMap durOf).length = 0
  · simp [hl]
  · have hl2 : ((resps.filter (fun r => r.status == "COMPLETED")).filterMap durOf).length > 0 :=
      Nat.pos_of_ne_zero hl
    simp [hl, hl2]

theorem round_five_thirds : round ((5 : ℚ) / 3) = 2 := by
  rw [round_eq]
  norm_num

/-- C8 (amended): the dashboard averageResponseTime statistic equals the
arithmetic mean, in minutes, of (completionTime - dispatchTime) over
exactly the COMPLETED responses with both timestamps present, rounded to
two decimal places by `toFixed(2)`; rows missing a timestamp are excluded
from numerator and denominator, and the claim's two-row example evaluates
to exactly 5.0 minutes. -/
theorem C8_amended :
    (∀ resps : List EmergencyResponse,
      averageResponseTime resps =
        toFixed2 (if (completedDurations resps).length = 0 then 0
                  else (completedDurations resps).sum / ((completedDurations resps).length : ℚ))) ∧
    (∀ t0 t1 : Int, averageResponseTime
        [⟨1, 1, 5, "COMPLETED", some t0, some (t0 + 300000), none⟩,
         ⟨2, 1, 6, "COMPLETED", some t1, none, none⟩] = 5) := by
  refine ⟨averageResponseTime_spec, ?_⟩
  intro t0 t1
  rw [averageResponseTime_spec]
  have hd : completedDurations
      [⟨1, 1, 5, "COMPLETED", some t0, some (t0 + 300000), none⟩,
       ⟨2, 1, 6, "COMPLETED", some t1, none, none⟩] = [5] := by
    unfold completedDurations durOf
    simp
    norm_num
  rw [hd]
  norm_num [toFixed2]

def C8row : EmergencyResponse := ⟨1, 1, 5, "COMPLETED", some 0, some 1000, none⟩

/-- C8 counterexample: for a single completed response of 1000 ms the
statistic is 0.02 minutes, not the exact mean 1/60, so the statistic does
not equal the arithmetic mean in general (it is the rounded mean). -/
theorem C8_counterexample :
    averageResponseTime [C8row] = 1 / 50 ∧
    (completedDurations [C8row]).sum / ((completedDurations [C8row]).length : ℚ) = 1 / 60 ∧
    averageResponseTime [C8row]
      ≠ (completedDurations [C8row]).sum / ((completedDurations [C8row]).length : ℚ) := by
  have hd : completedDurations [C8row] = [1 / 60] := by
    simp [completedDurations, C8row, durOf]
    norm_num
  have havg : averageResponseTime [C8row] = 1 / 50 := by
    rw [averageResponseTime_spec, hd]
    show toFixed2 (if (1 : ℕ) = 0 then 0 else (1 / 60 + 0) / ((1 : ℕ) : ℚ)) = 1 / 50
    norm_num [toFixed2]
    rw [round_five_thirds]
    norm_num
  refine ⟨havg, by rw [hd]; norm_num, ?_⟩
  rw [havg, hd]
  norm_num

/-- Finding in a list extended with a fresh matching row. -/
theorem find?_append_singleton {α : Type} (l : List α) (x : α) (p : α → Bool)
    (hl : ∀ y ∈ l, p y = false) (hx : p x = true) :
    (l ++ [x]).find? p = some x := by
  induction l with
  | nil => simp [List.find?, hx]
  | cons a t ih =>
      have ha := hl a (List.mem_cons_self a t)
      simp only [List.cons_append, List.find?, ha]
      exact ih (fun y hy => hl y (List.mem_cons_of_mem a hy))

/-- C9 (amended): creating a request stores severity by the fixed mapping
CRITICAL to 5, URGENT to 3, anything else to 1, and read-back returns
exactly that medicalInfo; the severity of a created request therefore lies
in 1..5, not in the glossary's 1..4 range (CRITICAL yields 5). -/
theorem C9_grade_severity (s : Store) (dto : CreateEmergencyRequestDto) (uid : RowId)
    (u : User) (hu : findUser s (dto.patientId.getD uid) = some u)
    (hfresh : ∀ r ∈ s.requests, r.id ≠ s.nextId) :
    getEmergencyRequestById (createEmergencyRequest noFail s dto uid).2
        s.nextId (dto.patientId.getD uid)
      = .ok ⟨s.nextId, "PENDING",
          .obj ⟨some (.jsNum (gradeToSeverity dto.grade)), some dto.grade⟩⟩ ∧
    gradeToSeverity "CRITICAL" = 5 ∧
    gradeToSeverity "URGENT" = 3 ∧
    (dto.grade ≠ "CRITICAL" → dto.grade ≠ "URGENT" → gradeToSeverity dto.grade = 1) ∧
    (1 ≤ gradeToSeverity dto.grade ∧ gradeToSeverity dto.grade ≤ 5) := by
  refine ⟨?_, by decide, ?_, ?_, ?_⟩
  · have hfind : ((s.requests ++
        [(⟨s.nextId, "PENDING", dto.type,
            some (.obj ⟨some (.jsNum (gradeToSeverity dto.grade)), some dto.grade⟩),
            dto.patientId.getD uid, none⟩ : EmergencyRequest)]).find?
        (fun r => r.id == s.nextId))
        = some (⟨s.nextId, "PENDING", dto.type,
            some (.obj ⟨some (.jsNum (gradeToSeverity dto.grade)), some dto.grade⟩),
            dto.patientId.getD uid, none⟩ : EmergencyRequest) := by
      refine find?_append_singleton _ _ _ (fun y hy => ?_) (by simp)
      simp [hfresh y hy]
    simp [createEmergencyRequest, hu, notifyAll_noFail, emitBroadcast_noFail,
      getEmergencyRequestById, findRequest, hfind]
  · decide
  · intro h1 h2
    simp [gradeToSeverity, h1, h2]
  · unfold gradeToSeverity
    split
    · norm_num
    · split
      · norm_num
      · norm_num

/-- C9 counterexample: a request created with grade CRITICAL reads back
with severity 5, and 5 is outside the glossary's 1..4 range. -/
theorem C9_counterexample :
    getEmergencyRequestById (createEmergencyRequest noFail WAssign
        ⟨none, "accident", "CRITICAL"⟩ 7).2 10 7
      = .ok ⟨10, "PENDING", .obj ⟨some (.jsNum 5), some "CRITICAL"⟩⟩ ∧
    ¬((5 : ℚ) ≤ 4) :=
  ⟨rfl, by norm_num⟩

/-- Witness for C9 at the concrete store `WAssign` with grade CRITICAL. -/
theorem C9_grade_severity_witness :
    getEmergencyRequestById (createEmergencyRequest noFail WAssign
        ⟨none, "accident", "CRITICAL"⟩ 7).2 10 7
      = .ok ⟨10, "PENDING",
          .obj ⟨some (.jsNum (gradeToSeverity "CRITICAL")), some "CRITICAL"⟩⟩ ∧
    gradeToSeverity "CRITICAL" = 5 ∧
    gradeToSeverity "URGENT" = 3 ∧
    ((("CRITICAL" : String)) ≠ "CRITICAL" → (("CRITICAL" : String)) ≠ "URGENT" →
      gradeToSeverity "CRITICAL" = 1) ∧
    (1 ≤ gradeToSeverity "CRITICAL" ∧ gradeToSeverity "CRITICAL" ≤ 5) :=
  C9_grade_severity WAssign ⟨none, "accident", "CRITICAL"⟩ 7
    ⟨7, "PATIENT", "ACTIVE", none⟩ rfl (by decide)

/-- The criticalCases reduce counts exactly the requests whose severity
reads as the number 4. -/
theorem criticalCases_eq (reqs : List EmergencyRequest) :
    criticalCases reqs
      = (reqs.filter (fun e => getSeverity e.medicalInfo == some (some 4))).length := by
  unfold criticalCases
  suffices h : ∀ acc : ℕ, reqs.foldl
      (fun acc e => acc + (if getSeverity e.medicalInfo = some (some 4) then 1 else 0)) acc
      = acc + (reqs.filter (fun e => getSeverity e.medicalInfo == some (some 4))).length by
    simpa using h 0
  induction reqs with
  | nil => simp
  | cons e t ih =>
      intro acc
      by_cases hs : getSeverity e.medicalInfo = some (some 4)
      · simp only [List.foldl_cons, List.filter_cons, hs, if_true, beq_self_eq_true,
          List.length_cons]
        rw [ih]
        omega
      · have hs' : (getSeverity e.medicalInfo == some (some 4)) = false := by
          simpa using hs
        simp only [List.foldl_cons, List.filter_cons, hs, if_false, hs', add_zero,
          Bool.false_eq_true]
        rw [ih]

/-- C10: the dashboard criticalCases statistic counts exactly the requests
whose medicalInfo severity — read from an object or parsed from a JSON
string, numbers taken as-is and other primitives coerced — equals 4;
severity 5 (the value created for grade CRITICAL), an absent medicalInfo,
and an unparsable medicalInfo string are not counted. -/
theorem C10_critical_cases :
    (∀ reqs : List EmergencyRequest,
      criticalCases reqs
        = (reqs.filter (fun e => getSeverity e.medicalInfo == some (some 4))).length) ∧
    (∀ q : ℚ, ∀ g : Option String,
      getSeverity (some (.obj ⟨some (.jsNum q), g⟩)) = some (some q)) ∧
    (∀ q : ℚ, ∀ g : Option String,
      getSeverity (some (.jstr (.pobj ⟨some (.jsNum q), g⟩))) = some (some q)) ∧
    getSeverity (some (.obj ⟨some (.jsStr "4"), none⟩)) = some (some 4) ∧
    getSeverity none = none ∧
    getSeverity (some (.jstr .bad)) = none ∧
    criticalCases [⟨1, "PENDING", "m", some (.obj ⟨some (.jsNum 4), none⟩), 7, none⟩,
      ⟨2, "PENDING", "m", some (.obj ⟨some (.jsNum 5), none⟩), 7, none⟩,
      ⟨3, "PENDING", "m", none, 7, none⟩,
      ⟨4, "PENDING", "m", some (.jstr .bad), 7, none⟩] = 1 := by
  refine ⟨criticalCases_eq, fun q g => rfl, fun q g => rfl, by decide, rfl, rfl, by decide⟩
